import Mathlib

/-!
Shallow embedding of the `tsg-officer` workflow engine
(`src/services/tsg-officer/tsg_officer/`), covering the state model
(`state/models.py`), the clarification tracker (`tools/clarifications.py`),
and the graph nodes (`graph/nodes/*.py`), together with theorems about the
claims of the specification.

Modelling conventions:
* Python strings are Lean `String`s; `str.strip`, `str.split`, `str.lower`
  and friends are re-implemented with Python semantics (`pyStrip`, `pySplit`,
  `sLower`, ...).
* Python dicts (insertion ordered, update-in-place) are association lists
  with `dget` / `dset` / `dmem`.
* The regular expressions of the source are compiled by hand into lists of
  token sequences (`Tok`), one per alternative of the original pattern, and
  matched by a small executable matcher (`reSearch`).
* External collaborators (the language-model service, the rule repository)
  are parameters of the node functions, exactly at the call boundary the
  source uses.
* `interrupt(payload)` suspension is modelled by passing the eventual resume
  value as an argument to the node and returning the payload that was asked
  (`asked : Option Payload`), following the continuation reading of the spec.
* Audit event timestamps come from a wall clock and are omitted; audit
  events keep their `event` name and stringified `details`.
-/

namespace TSG

/-- Whitespace class of Python's `str.split()` / `str.strip()` / regex `\s`
(ASCII part; the inputs of interest contain no exotic Unicode spaces). -/
def pyIsWs (c : Char) : Bool :=
  c = ' ' || c = '\t' || c = '\n' || c = '\r' || c = '\x0b' || c = '\x0c'

/-- Characters counted as word characters by `\b` (ASCII word chars plus the
CJK range used by the Chinese clarification patterns). -/
def isWordChar (c : Char) : Bool :=
  c.isAlphanum || c = '_' || (0x4e00 ≤ c.toNat && c.toNat ≤ 0x9fff)

/-- Python `str.strip()` on a character list. -/
def pyStripList (cs : List Char) : List Char :=
  ((cs.dropWhile pyIsWs).reverse.dropWhile pyIsWs).reverse

/-- Python `str.strip()`. -/
def pyStrip (s : String) : String := ⟨pyStripList s.data⟩

/-- Python `str.strip(set)` for an explicit character set. -/
def pyStripSet (set : List Char) (s : String) : String :=
  ⟨((s.data.dropWhile (set.contains ·)).reverse.dropWhile (set.contains ·)).reverse⟩

/-- Python `str.lstrip(set)`. -/
def pyLstripSet (set : List Char) (s : String) : String :=
  ⟨s.data.dropWhile (set.contains ·)⟩

/-- Python `str.rstrip(set)`. -/
def pyRstripSet (set : List Char) (s : String) : String :=
  ⟨(s.data.reverse.dropWhile (set.contains ·)).reverse⟩

/-- Helper for `pySplit`: accumulate the current word (reversed) and split on
whitespace runs. -/
def pySplitGo : List Char → List Char → List String
  | [], acc => if acc.isEmpty then [] else [⟨acc.reverse⟩]
  | c :: rest, acc =>
    if pyIsWs c then
      if acc.isEmpty then pySplitGo rest [] else (⟨acc.reverse⟩ : String) :: pySplitGo rest []
    else pySplitGo rest (c :: acc)

/-- Python `str.split()` with no separator: split on whitespace runs,
dropping empty pieces. -/
def pySplit (s : String) : List String := pySplitGo s.data []

/-- Python `str.lower()` (ASCII). -/
def sLower (s : String) : String := ⟨s.data.map Char.toLower⟩

/-- Python `str.upper()` (ASCII). -/
def sUpper (s : String) : String := ⟨s.data.map Char.toUpper⟩

/-- Python dict lookup `d.get(key)` on an insertion-ordered association
list. -/
def dget {α : Type} : List (String × α) → String → Option α
  | [], _ => none
  | (k, v) :: rest, key => if k = key then some v else dget rest key

/-- Python dict assignment `d[key] = v`: update in place if the key exists,
else append. -/
def dset {α : Type} : List (String × α) → String → α → List (String × α)
  | [], key, v => [(key, v)]
  | (k, w) :: rest, key, v =>
    if k = key then (key, v) :: rest else (k, w) :: dset rest key v

/-- Python `key in d`. -/
def dmem {α : Type} (d : List (String × α)) (key : String) : Bool :=
  (dget d key).isSome

/-- Token of a hand-compiled regular expression: a case-insensitive literal,
`\s*`, `\s+`, `[\s_-]+`, or a word boundary `\b`. -/
inductive Tok where
  | lit (s : String)
  | ws0
  | ws1
  | sep1
  | wb
deriving Repr, DecidableEq

/-- Separator class `[\s_-]` used by the category patterns. -/
def pySep (c : Char) : Bool := pyIsWs c || c = '_' || c = '-'

/-- Match a literal case-insensitively, returning the last consumed character
and the remaining input. -/
def litMatch : List Char → Option Char → List Char → Option (Option Char × List Char)
  | [], prev, cs => some (prev, cs)
  | p :: ps, _, c :: cs =>
    if c.toLower = p.toLower then litMatch ps (some c) cs else none
  | _ :: _, _, [] => none

/-- Greedily consume a run of characters satisfying `f`, tracking the last
consumed character. -/
def skipRun (f : Char → Bool) : Option Char → List Char → Option Char × List Char
  | prev, [] => (prev, [])
  | prev, c :: cs => if f c then skipRun f (some c) cs else (prev, c :: cs)

/-- Match a token sequence at the current position.  Greedy matching of the
whitespace/separator runs is equivalent to the backtracking semantics here
because in every pattern the token following a run never starts with a
run character. -/
def matchToks : List Tok → Option Char → List Char → Option (Option Char × List Char)
  | [], prev, cs => some (prev, cs)
  | .lit s :: toks, prev, cs =>
    match litMatch s.data prev cs with
    | some (p, cs') => matchToks toks p cs'
    | none => none
  | .ws0 :: toks, prev, cs =>
    let r := skipRun pyIsWs prev cs
    matchToks toks r.1 r.2
  | .ws1 :: toks, _, c :: cs =>
    if pyIsWs c then
      let r := skipRun pyIsWs (some c) cs
      matchToks toks r.1 r.2
    else none
  | .ws1 :: _, _, [] => none
  | .sep1 :: toks, _, c :: cs =>
    if pySep c then
      let r := skipRun pySep (some c) cs
      matchToks toks r.1 r.2
    else none
  | .sep1 :: _, _, [] => none
  | .wb :: toks, prev, cs =>
    let pw := match prev with | some c => isWordChar c | none => false
    let nw := match cs with | c :: _ => isWordChar c | [] => false
    if pw ≠ nw then matchToks toks prev cs else none

/-- Search a token sequence anywhere in the input (regex `search`). -/
def searchFrom (toks : List Tok) : Option Char → List Char → Bool
  | prev, cs =>
    (matchToks toks prev cs).isSome ||
      match cs with
      | [] => false
      | c :: rest => searchFrom toks (some c) rest

/-- Search one alternative in a string. -/
def reSearchOne (toks : List Tok) (s : String) : Bool := searchFrom toks none s.data

/-- Search an alternation (list of alternatives) in a string. -/
def reSearch (alts : List (List Tok)) (s : String) : Bool :=
  alts.any (reSearchOne · s)

/-! Embedding of `tools/clarifications.py`. -/

/-- Clarification bound: `MAX_EXPLANATION_REQUESTS_PER_QUESTION = 3`. -/
def MAX_EXPLANATION_REQUESTS_PER_QUESTION : Nat := 3

/-- Sentinel stored when a question is bypassed: `BYPASSED_ANSWER_VALUE`. -/
def BYPASSED_ANSWER_VALUE : String := "[BYPASSED]"

/-- Smart punctuation translation table `_SMART_PUNCT_TRANSLATION`. -/
def smartPunctTranslate (c : Char) : Char :=
  if c = '’' || c = '‘' || c = '‛' || c = '＇' then '\''
  else if c = '“' || c = '”' then '"'
  else c

/-- Embedding of `_normalize_user_text`: NFKC normalization followed by the
smart punctuation translation.  NFKC is modelled as the identity map, which
is exact on ASCII and CJK inputs (the fullwidth apostrophe the table also
covers is mapped by the table itself). -/
def normalizeUserText (t : String) : String := ⟨t.data.map smartPunctTranslate⟩

/-- Python `s.startswith(p)` (character-list based). -/
def strStartsWith (s p : String) : Bool := p.data.isPrefixOf s.data

/-- Alternatives of `_CLARIFY_RE`, expanded alternation by alternation.  The
optional `(一下)?` suffix of `解释(一下)?` is dropped: for a search it does
not change the matched set. -/
def clarifyAlts : List (List Tok) :=
  [ [.wb, .lit "i", .ws0, .lit "do", .ws0, .lit "not", .ws0, .lit "understand", .wb],
    [.wb, .lit "i", .ws0, .lit "do", .ws0, .lit "not", .ws0, .lit "get", .wb],
    [.wb, .lit "i", .ws0, .lit "do", .ws0, .lit "not", .ws0, .lit "know", .wb],
    [.wb, .lit "i", .ws0, .lit "don't", .ws0, .lit "understand", .wb],
    [.wb, .lit "i", .ws0, .lit "don't", .ws0, .lit "get", .wb],
    [.wb, .lit "i", .ws0, .lit "don't", .ws0, .lit "know", .wb],
    [.wb, .lit "i", .ws0, .lit "dont", .ws0, .lit "understand", .wb],
    [.wb, .lit "i", .ws0, .lit "dont", .ws0, .lit "get", .wb],
    [.wb, .lit "i", .ws0, .lit "dont", .ws0, .lit "know", .wb],
    [.wb, .lit "not", .ws1, .lit "sure", .wb],
    [.wb, .lit "not", .ws1, .lit "familiar", .wb],
    [.wb, .lit "can", .ws1, .lit "you", .ws1, .lit "explain", .wb],
    [.wb, .lit "can", .ws1, .lit "you", .ws1, .lit "clarify", .wb],
    [.wb, .lit "can", .ws1, .lit "you", .ws1, .lit "define", .wb],
    [.wb, .lit "could", .ws1, .lit "you", .ws1, .lit "explain", .wb],
    [.wb, .lit "could", .ws1, .lit "you", .ws1, .lit "clarify", .wb],
    [.wb, .lit "could", .ws1, .lit "you", .ws1, .lit "define", .wb],
    [.wb, .lit "would", .ws1, .lit "you", .ws1, .lit "explain", .wb],
    [.wb, .lit "would", .ws1, .lit "you", .ws1, .lit "clarify", .wb],
    [.wb, .lit "would", .ws1, .lit "you", .ws1, .lit "define", .wb],
    [.wb, .lit "please", .ws1, .lit "explain", .wb],
    [.wb, .lit "please", .ws1, .lit "clarify", .wb],
    [.wb, .lit "please", .ws1, .lit "define", .wb],
    [.wb, .lit "what", .ws1, .lit "is", .wb],
    [.wb, .lit "what", .ws1, .lit "are", .wb],
    [.wb, .lit "what", .ws1, .lit "does", .wb],
    [.wb, .lit "what", .ws1, .lit "do", .ws1, .lit "you", .ws1, .lit "mean", .wb],
    [.wb, .lit "meaning", .ws1, .lit "of", .wb],
    [.wb, .lit "help", .ws1, .lit "me", .ws1, .lit "understand", .wb],
    [.wb, .lit "example", .wb],
    [.wb, .lit "template", .wb],
    [.lit "不懂"], [.lit "不明白"], [.lit "我不懂"], [.lit "我不明白"],
    [.lit "不太懂"], [.lit "不太明白"], [.lit "看不懂"], [.lit "什么意思"],
    [.lit "解释"], [.lit "请解释"], [.lit "请说明"],
    [.lit "能不能解释"], [.lit "能不能说明"], [.lit "怎么理解"], [.lit "怎么定义"] ]

/-- Interrogative words of `_QUESTION_WORD_RE`. -/
def questionWords : List String :=
  ["what", "why", "how", "can", "could", "would", "where", "when", "who"]

/-- Embedding of `_QUESTION_WORD_RE.search`: the pattern is anchored with
`^`, so a search is a prefix match of one of the words followed by a word
boundary. -/
def questionWordMatch (t : String) : Bool :=
  questionWords.any fun w => (matchToks [.lit w, .wb] none t.data).isSome

/-- Character set of the `t.lstrip(" \t\n\r\"'")` call in
`looks_like_clarification_request`. -/
def quoteWsSet : List Char := [' ', '\t', '\n', '\r', '"', '\'']

/-- Embedding of `looks_like_clarification_request`. -/
def looks_like_clarification_request (text : String) : Bool :=
  let t := pyStrip (normalizeUserText text)
  if t = "" then false
  else
    let t2 := pyLstripSet quoteWsSet t
    if t2.data.contains '?' && (questionWordMatch t2 || (pySplit t2).length ≤ 8) then
      true
    else if questionWordMatch t2 &&
        !(strStartsWith (sLower t2) "how we " || strStartsWith (sLower t2) "how our ") &&
        (pySplit t2).length ≤ 12 && !t2.data.contains ':' && !t2.data.contains '\n' then
      true
    else
      reSearch clarifyAlts t2

/-- Embedding of `bump_counter`.  The Python code rebuilds the dict keeping
only int-coercible values; in the typed model the counters are already
naturals, so the copy is the identity. -/
def bump_counter (counts : List (String × Nat)) (key : String) :
    List (String × Nat) × Nat :=
  let k0 := pyStrip key
  let k2 := if k0 = "" then "unknown" else k0
  let n := (dget counts k2).getD 0 + 1
  (dset counts k2 n, n)

/-! Embedding of `state/models.py`. -/

/-- Chat transcript entry (`ChatMessage`). -/
structure ChatMessage where
  role : String
  content : String
deriving Repr, DecidableEq

/-- Audit event (`AuditEvent`).  The wall-clock timestamp `ts` is produced by
`now_iso()` and is omitted from the model; `details` values are stringified. -/
structure AuditEvent where
  event : String
  details : List (String × String)
deriving Repr, DecidableEq

/-- Evidence excerpt attached to a checklist item (`Evidence`). -/
structure Evidence where
  doc_id : String := ""
  source : String := ""
  page : Option Int := none
  excerpt : String := ""
deriving Repr, DecidableEq

/-- Checklist item (`ChecklistItem`); the fields the nodes read. -/
structure ChecklistItem where
  rule_id : String := ""
  title : String := ""
  status : String := ""
  severity : String := ""
  missing : List String := []
  rationale : String := ""
  evidence : List Evidence := []
deriving Repr, DecidableEq

/-- Checklist report (`ChecklistReport`); the fields the nodes read. -/
structure ChecklistReport where
  overall_recommendation : String := "NEED_INFO"
  summary : String := ""
  checklist : List ChecklistItem := []
  blocking_issues : List String := []
  followup_questions : List String := []
deriving Repr, DecidableEq

/-- Diagram file metadata (`DiagramFile`); absent string entries are `""`. -/
structure DiagramFile where
  name : String := ""
  mime_type : String := ""
  path : String := ""
  size_bytes : Option Int := none
  sha256 : String := ""
deriving Repr, DecidableEq

/-- Pending diagram follow-up pointer (`PendingDiagramFollowup`). -/
structure PendingDiagramFollowup where
  index : Nat := 0
  question : String := ""
deriving Repr, DecidableEq

/-- Value stored in the `intake` dict: a string or a list of strings
(`application_categories`). -/
inductive IVal where
  | s (v : String)
  | ls (v : List String)
deriving Repr, DecidableEq

/-- Case state (`TSGState`).  Fields the embedded nodes read or write;
`followup_index` and the clarification counters are naturals because every
write in the source stores a non-negative int. -/
structure TSGState where
  case_id : String := ""
  phase : String := "START"
  messages : List ChatMessage := []
  application_type : Option String := none
  application_categories : Option (List String) := none
  intake : List (String × IVal) := []
  required_fields : List String := []
  missing_fields : List String := []
  documents : List (String × String) := []
  checklist_report : Option ChecklistReport := none
  followup_index : Nat := 0
  followup_answers : List (String × String) := []
  clarification_counts : List (String × Nat) := []
  process_description : Option String := none
  flowchart_mermaid : Option String := none
  flowchart_confirmed : Bool := false
  diagram_input_mode : Option String := none
  diagram_upload : Option DiagramFile := none
  pending_diagram_followup : Option PendingDiagramFollowup := none
  final_message_sent : Bool := false
  reviewer_decision : Option String := none
  audit_log : List AuditEvent := []
  classification_reasoning : Option String := none
  checklist_reasoning : Option String := none
  flowchart_reasoning : Option String := none
  ui_reasoning_title : Option String := none
  ui_reasoning_summary : Option String := none
deriving Repr, DecidableEq

/-- Embedding of `new_case_state` (documents carry `(name, text)` pairs). -/
def new_case_state (cid : String) : TSGState := { case_id := cid }

/-- The partial state update a node returns (the `update=` dict of a
`Command`).  `none` means the key is absent from the dict; `messages` and
`audit_log` are append-reduced channels, all other keys replace. -/
structure Update where
  phase : Option String := none
  messages : List ChatMessage := []
  audit_log : List AuditEvent := []
  application_type : Option (Option String) := none
  application_categories : Option (List String) := none
  intake : Option (List (String × IVal)) := none
  required_fields : Option (List String) := none
  missing_fields : Option (List String) := none
  checklist_report : Option ChecklistReport := none
  followup_index : Option Nat := none
  followup_answers : Option (List (String × String)) := none
  clarification_counts : Option (List (String × Nat)) := none
  process_description : Option String := none
  flowchart_mermaid : Option String := none
  flowchart_confirmed : Option Bool := none
  diagram_input_mode : Option (Option String) := none
  diagram_upload : Option DiagramFile := none
  pending_diagram_followup : Option (Option PendingDiagramFollowup) := none
  final_message_sent : Option Bool := none
  reviewer_decision : Option String := none
  classification_reasoning : Option (Option String) := none
  checklist_reasoning : Option (Option String) := none
  flowchart_reasoning : Option (Option String) := none
  ui_reasoning_title : Option (Option String) := none
  ui_reasoning_summary : Option (Option String) := none
deriving Repr, DecidableEq

/-- Merge an update into the state: `messages`/`audit_log` append (their
reducer is `operator.add`), every other present key replaces the field. -/
def applyUpdate (s : TSGState) (u : Update) : TSGState :=
  { s with
    phase := u.phase.getD s.phase
    messages := s.messages ++ u.messages
    audit_log := s.audit_log ++ u.audit_log
    application_type := u.application_type.getD s.application_type
    application_categories :=
      match u.application_categories with
      | some cs => some cs
      | none => s.application_categories
    intake := u.intake.getD s.intake
    required_fields := u.required_fields.getD s.required_fields
    missing_fields := u.missing_fields.getD s.missing_fields
    checklist_report :=
      match u.checklist_report with
      | some r => some r
      | none => s.checklist_report
    followup_index := u.followup_index.getD s.followup_index
    followup_answers := u.followup_answers.getD s.followup_answers
    clarification_counts := u.clarification_counts.getD s.clarification_counts
    process_description :=
      match u.process_description with
      | some d => some d
      | none => s.process_description
    flowchart_mermaid :=
      match u.flowchart_mermaid with
      | some m => some m
      | none => s.flowchart_mermaid
    flowchart_confirmed := u.flowchart_confirmed.getD s.flowchart_confirmed
    diagram_input_mode := u.diagram_input_mode.getD s.diagram_input_mode
    diagram_upload :=
      match u.diagram_upload with
      | some f => some f
      | none => s.diagram_upload
    pending_diagram_followup := u.pending_diagram_followup.getD s.pending_diagram_followup
    final_message_sent := u.final_message_sent.getD s.final_message_sent
    reviewer_decision :=
      match u.reviewer_decision with
      | some d => some d
      | none => s.reviewer_decision
    classification_reasoning := u.classification_reasoning.getD s.classification_reasoning
    checklist_reasoning := u.checklist_reasoning.getD s.checklist_reasoning
    flowchart_reasoning := u.flowchart_reasoning.getD s.flowchart_reasoning
    ui_reasoning_title := u.ui_reasoning_title.getD s.ui_reasoning_title
    ui_reasoning_summary := u.ui_reasoning_summary.getD s.ui_reasoning_summary }

/-- Structured payload of an `interrupt(...)` call: the pending question a
suspension returns to the caller. -/
structure Payload where
  ptype : String := ""
  index : Option Nat := none
  field : Option String := none
  question : String := ""
  hint : String := ""
deriving Repr, DecidableEq

/-- A node's `Command(update=..., goto=...)`. -/
structure Command where
  update : Update
  goto : String
deriving Repr, DecidableEq

/-- Result of one node invocation: the payload the node asked through
`interrupt` (if control reached an interrupt) and the returned command. -/
structure NodeResult where
  asked : Option Payload := none
  cmd : Command
deriving Repr, DecidableEq

/-- Embedding of `tools/audit.py` `make_event` (timestamp omitted). -/
def makeEvent (event : String) (details : List (String × String)) : AuditEvent :=
  { event := event, details := details }

/-- Classification result of the language-model service
(`classify_application_type`). -/
structure ClassifyGuess where
  application_type : String := ""
  rationale : Option String := none
deriving Repr, DecidableEq

/-- External language-model service at its call boundary (spec section 6).
Calls wrapped in `try/except` in the source return `Option` (`none` models a
raised exception); `generate_flowchart` is not wrapped and is total. -/
structure LLM where
  clarify_question : String → String → Option String := fun _ _ => none
  summarize_reasoning : String → String → String → Option String := fun _ _ _ => none
  generate_flowchart : String → String := fun _ => ""
  classify_application_type : String → ClassifyGuess := fun _ => {}
  last_reasoning_summary : Option String := none

/-- Python `s[:n]` (by characters). -/
def sTake (s : String) (n : Nat) : String := ⟨s.data.take n⟩

/-! Embedding of `graph/nodes/followup.py`. -/

/-- Alternatives of `_DIAGRAM_RE` (the escaped-dot variant `draw\.?io` is the
two literals `draw.io` and `drawio`). -/
def diagramAlts : List (List Tok) :=
  [ [.wb, .lit "diagram", .wb],
    [.wb, .lit "flow", .ws0, .lit "chart", .wb],
    [.wb, .lit "flowchart", .wb],
    [.wb, .lit "architecture", .ws0, .lit "diagram", .wb],
    [.wb, .lit "sequence", .ws0, .lit "diagram", .wb],
    [.wb, .lit "process", .ws0, .lit "diagram", .wb],
    [.wb, .lit "mermaid", .wb],
    [.wb, .lit "visio", .wb],
    [.wb, .lit "draw.io", .wb],
    [.wb, .lit "drawio", .wb] ]

/-- Embedding of `_is_diagram_request`. -/
def is_diagram_request (question : String) : Bool :=
  let q := pyStrip question
  if q = "" then false
  else if reSearchOne [.lit "principle-diagram"] q then true
  else reSearch diagramAlts q

/-- Embedding of `_diagram_answer_from_state`: audit-friendly answer string
when diagram evidence already exists. -/
def diagram_answer_from_state (state : TSGState) : Option String :=
  let uploadAns : Option String :=
    match state.diagram_upload with
    | some upload =>
      if upload.path ≠ "" || upload.name ≠ "" then
        let name := pyStrip (if upload.name ≠ "" then upload.name else "diagram")
        let path := pyStrip upload.path
        let sha := pyStrip upload.sha256
        let details := (if path ≠ "" then ["path: " ++ path] else []) ++
                       (if sha ≠ "" then ["sha256: " ++ sha] else [])
        let suffix := if details ≠ [] then " (" ++ String.intercalate "; " details ++ ")" else ""
        some ("Diagram uploaded: " ++ name ++ suffix)
      else none
    | none => none
  match uploadAns with
  | some a => some a
  | none =>
    let mermaid := pyStrip (state.flowchart_mermaid.getD "")
    if mermaid ≠ "" && state.flowchart_confirmed then
      some ("Diagram generated and confirmed. Mermaid:\n\n```mermaid\n" ++ mermaid ++ "\n```")
    else none

/-- Structural core of the skip loop: walk the remaining questions,
advancing the index over those that already have an answer. -/
def skipAnsweredGo (answers : List (String × String)) : List String → Nat → Nat
  | [], idx => idx
  | q :: rest, idx => if dmem answers q then skipAnsweredGo answers rest (idx + 1) else idx

/-- The `while idx < len(followups) and str(followups[idx]) in answers`
skip loop of the followup node: running out of the list or hitting an
unanswered question stops the loop. -/
def skipAnswered (fups : List String) (answers : List (String × String))
    (idx : Nat) : Nat :=
  skipAnsweredGo answers (fups.drop idx) idx

/-- Embedding of the `followup` node.  `answer` is the value the eventual
resume delivers to the `interrupt` call (used only when control reaches the
interrupt). -/
def followup (llm : LLM) (state : TSGState) (answer : String) : NodeResult :=
  let followups := match state.checklist_report with
    | some r => r.followup_questions
    | none => []
  let answers := state.followup_answers
  let idx := skipAnswered followups answers state.followup_index
  if followups = [] || followups.length ≤ idx then
    { cmd :=
      { update :=
          { phase := some "CHECKLIST",
            messages := [⟨"assistant",
              "Thanks — I have the clarifications. Re-running the checklist now."⟩],
            audit_log := [makeEvent "followups_complete"
              [("count", toString answers.length)]] },
        goto := "checklist" } }
  else
    let question := followups.getD idx ""
    if is_diagram_request question then
      match diagram_answer_from_state state with
      | some existing =>
        { cmd :=
          { update :=
              { followup_answers := some (dset answers question existing),
                followup_index := some (idx + 1),
                ui_reasoning_title := some (some ("Follow-up reasoning — " ++
                  toString (idx + 1) ++ "/" ++ toString followups.length)),
                ui_reasoning_summary := some (some
                  ("- A diagram was already provided earlier in the workflow.\n" ++
                   "- I attached a reference to it as evidence and moved to the next question.")),
                messages := [⟨"assistant", "Noted — diagram evidence already on file."⟩],
                audit_log := [makeEvent "followup_answer_auto_filled"
                  [("index", toString idx), ("q_preview", sTake question 80),
                   ("kind", "diagram")]] },
            goto := "followup" } }
      | none =>
        { cmd :=
          { update :=
              { phase := some "DIAGRAM",
                pending_diagram_followup := some (some ⟨idx, question⟩),
                messages := [⟨"assistant",
                  "This follow-up requires a diagram. " ++
                  "Next, choose whether to upload an existing diagram file or answer questions so I can generate one for you."⟩],
                audit_log := [makeEvent "diagram_followup_routed"
                  [("index", toString idx), ("q_preview", sTake question 80)]] },
            goto := "diagram" } }
    else
      let payload : Payload :=
        { ptype := "followup_question", index := some idx, question := question,
          hint := "Answer in 1–3 sentences. If not applicable, reply N/A." }
      let answer_str := pyStrip answer
      if answer_str = "" then
        { asked := some payload,
          cmd :=
          { update :=
              { messages := [⟨"assistant",
                  "I didn't catch an answer. Please reply with a short answer (or 'N/A' if it doesn't apply)."⟩],
                audit_log := [makeEvent "followup_empty_answer"
                  [("index", toString idx), ("q_preview", sTake question 80)]] },
            goto := "followup" } }
      else if looks_like_clarification_request answer_str then
        let key := "followup::" ++ pyStrip question
        let bc := bump_counter state.clarification_counts key
        let new_counts := bc.1
        let n := bc.2
        if MAX_EXPLANATION_REQUESTS_PER_QUESTION < n then
          { asked := some payload,
            cmd :=
            { update :=
                { clarification_counts := some new_counts,
                  followup_answers := some (dset answers question BYPASSED_ANSWER_VALUE),
                  followup_index := some (idx + 1),
                  ui_reasoning_title := some (some "Follow-up — bypassed"),
                  ui_reasoning_summary := some (some
                    ("- You requested clarification **" ++ toString n ++
                     "** times for the same question.\n" ++
                     "- To keep the workflow moving, we bypassed this question for now and moved on.")),
                  messages := [⟨"assistant",
                    "I’ve explained this question several times already. " ++
                    "To keep moving, I’m going to bypass it for now and continue to the next item. " ++
                    "If you later want to revisit it, you can provide additional details during the update cycle before final review."⟩],
                  audit_log := [makeEvent "followup_bypassed_after_clarifications"
                    [("index", toString idx), ("q_preview", sTake question 80),
                     ("clarify_count", toString n)]] },
              goto := "followup" } }
        else
          let clarification := (llm.clarify_question question answer_str).getD
            ("Sure — I can clarify.\n\n" ++
             "- This question is asking you to provide specific details/evidence.\n" ++
             "- Please answer with 1–3 short bullets, and include concrete mechanisms/controls where possible.\n\n" ++
             "I’ll re-ask the question next.")
          let remaining := MAX_EXPLANATION_REQUESTS_PER_QUESTION - n
          let remaining_line :=
            if 0 < remaining then
              "(You can ask for clarification " ++ toString remaining ++
              " more time(s) for this question before we bypass it.)"
            else
              "(If you ask for clarification again on this same question, we will bypass it to keep moving.)"
          { asked := some payload,
            cmd :=
            { update :=
                { clarification_counts := some new_counts,
                  ui_reasoning_title := some (some "Follow-up — clarification"),
                  ui_reasoning_summary := some (some
                    ("- You asked for clarification instead of answering the question (attempt " ++
                     toString n ++ "/" ++ toString MAX_EXPLANATION_REQUESTS_PER_QUESTION ++ ").\n" ++
                     "- I provided an explanation and will re-ask the same question next.\n" ++
                     "- " ++ remaining_line)),
                  messages := [⟨"assistant", clarification⟩],
                  audit_log := [makeEvent "followup_clarification_provided"
                    [("index", toString idx), ("q_preview", sTake question 80),
                     ("clarify_count", toString n)]] },
              goto := "followup" } }
      else
        let answers' := dset answers question answer_str
        let ui_reasoning := (llm.summarize_reasoning "followup" question answer_str).getD
          ("- Captured your clarification for an item that was previously marked UNKNOWN.\n" ++
           "- Next: we'll append this answer to the submission evidence and re-run the checklist.")
        { asked := some payload,
          cmd :=
          { update :=
              { followup_answers := some answers',
                followup_index := some (idx + 1),
                ui_reasoning_title := some (some ("Follow-up reasoning — " ++
                  toString (idx + 1) ++ "/" ++ toString followups.length)),
                ui_reasoning_summary := some (some ui_reasoning),
                messages := [⟨"assistant", "Noted. Thanks."⟩],
                audit_log := [makeEvent "followup_answer_collected"
                  [("index", toString idx), ("q_preview", sTake question 80),
                   ("a_preview", sTake answer_str 80)]] },
            goto := "followup" } }

/-! Embedding of `graph/nodes/finalize.py`. -/

/-- Embedding of the `finalize` node.  The node returns a bare update dict
(no goto); the already-finalized branch returns only a notice message. -/
def finalize (state : TSGState) : Update :=
  if state.final_message_sent then
    { messages := [⟨"assistant",
        "This case is already marked DONE. Use 'New Case' to start another approval."⟩] }
  else
    let reviewer := state.reviewer_decision.getD "NEED_INFO"
    let reco := match state.checklist_report with
      | some r => r.overall_recommendation
      | none => "NEED_INFO"
    { final_message_sent := some true,
      messages := [⟨"assistant", String.intercalate "\n"
        ["✅ **Case complete**",
         "- Reviewer decision: **" ++ reviewer ++ "**",
         "- Checklist recommendation: **" ++ reco ++ "**",
         "",
         "You can export the full JSON checklist report + audit log from the Streamlit sidebar."]⟩],
      audit_log := [makeEvent "finalized"
        [("reviewer_decision", reviewer), ("checklist_reco", reco)]] }

/-! Embedding of `tools/rules.py` and `graph/nodes/checklist.py`. -/

/-- A rule of the rule repository (`Rule.to_dict` form: `None` question and
lists are already defaulted). -/
structure Rule where
  rule_id : String := ""
  title : String := ""
  description : String := ""
  severity : String := "INFO"
  applies_to : List String := []
  keywords : List String := []
  question : String := ""
deriving Repr, DecidableEq

/-- Python `a or b` on strings (empty string is falsy). -/
def pyOrStr (a b : String) : String := if a ≠ "" then a else b

/-- String-valued intake lookup; these keys hold strings in the source. -/
def intakeGetStr (intake : List (String × IVal)) (key : String) : String :=
  match dget intake key with
  | some (.s v) => v
  | _ => ""

/-- The `_KNOWN_CATEGORIES` of the checklist node (equal to the intake
node's `_AI_CATEGORIES`). -/
def KNOWN_CATEGORIES : List String :=
  ["Consumer of Internal AI", "Consumer of External AI", "Internal AI Builder"]

/-- The pattern of `_application_type_pattern`: word-bounded tokens joined by
`[\s_-]+`. -/
def categoryPattern (canonical : String) : List Tok :=
  [Tok.wb] ++ (((pySplit canonical).map Tok.lit).intersperse Tok.sep1) ++ [Tok.wb]

/-- Embedding of `_extract_categories_from_text` (checklist) and
`_extract_ai_categories` (intake): hits in canonical order, deduplicated. -/
def extract_categories_from_text (text : String) : List String :=
  if text = "" then []
  else
    let hits := KNOWN_CATEGORIES.filter fun cat => reSearchOne (categoryPattern cat) text
    hits.foldl (fun out h => if h ∈ out then out else out ++ [h]) []

/-- Embedding of `_normalize_categories`. -/
def normalize_categories (state : TSGState) : List String :=
  let intake := state.intake
  let cats := (state.application_categories).getD []
  if cats ≠ [] then (cats.map pyStrip).filter (· ≠ "")
  else
    let cats2 := match dget intake "application_categories" with
      | some (.ls cs) => cs
      | _ => []
    if cats2 ≠ [] then (cats2.map pyStrip).filter (· ≠ "")
    else
      let at0 := pyStrip
        (pyOrStr (state.application_type.getD "") (intakeGetStr intake "application_type"))
      extract_categories_from_text at0

/-- Alternatives of the `_is_category_followup` patterns. -/
def categoryFollowupAlts : List (List Tok) :=
  [ [.wb, .lit "which", .ws1, .lit "chubb", .ws1, .lit "ai", .ws1, .lit "category", .wb],
    [.wb, .lit "what", .ws1, .lit "type", .ws1, .lit "of", .ws1, .lit "submission", .wb],
    [.wb, .lit "submission", .ws1, .lit "category", .wb] ]

/-- Embedding of `_is_category_followup`. -/
def is_category_followup (question : String) : Bool :=
  let q := pyStrip question
  if q = "" then false else reSearch categoryFollowupAlts q

/-- Loop of `concat_documents`; documents carry `(name, text)`. -/
def concatDocsGo : List (String × String) → List String → List String
  | [], chunks => chunks
  | (name, text) :: rest, chunks =>
    if text = "" then concatDocsGo rest chunks
    else
      let chunks' := chunks ++ ["### " ++ name ++ "\n" ++ text ++ "\n"]
      if 40000 ≤ (chunks'.map String.length).sum then chunks'
      else concatDocsGo rest chunks'

/-- Embedding of `tools/documents.py` `concat_documents` with the default
`max_chars = 40_000`. -/
def concat_documents (documents : List (String × String)) : String :=
  sTake (String.intercalate "\n" (concatDocsGo documents [])) 40000

/-- Insert rules into the `seen` dict keyed by stripped `rule_id`, skipping
empty identifiers (the inner loop of the category union). -/
def buildSeen (rs : List Rule) (seen : List (String × Rule)) : List (String × Rule) :=
  rs.foldl (fun acc r =>
    let rid := pyStrip r.rule_id
    if rid ≠ "" then dset acc rid r else acc) seen

/-- Question synthesized for an UNKNOWN BLOCKER/WARN checklist item (body of
the synthesis loop). -/
def synthQuestion (rule_by_id : List (String × Rule)) (item : ChecklistItem) : String :=
  let rid := pyStrip item.rule_id
  let q := match dget rule_by_id rid with
    | some meta => pyStrip meta.question
    | none => ""
  if q ≠ "" then q
  else
    let title := pyStrip (pyOrStr item.title (pyOrStr rid "this requirement"))
    let missing_hint := match item.missing with
      | m :: _ => pyStrip m
      | [] => ""
    if missing_hint ≠ "" then title ++ ": " ++ missing_hint
    else "Please provide the information/evidence needed for: " ++ title

/-- The follow-up synthesis loop of the checklist node (UNKNOWN items of
severity BLOCKER/WARN, deduplicated, capped at 8, in checklist order). -/
def synthLoop (rule_by_id : List (String × Rule)) (categories : List String) :
    List ChecklistItem → List String → List String
  | [], acc => acc
  | item :: rest, acc =>
    if sUpper item.status ≠ "UNKNOWN" then synthLoop rule_by_id categories rest acc
    else if !(sUpper item.severity = "BLOCKER" || sUpper item.severity = "WARN") then
      synthLoop rule_by_id categories rest acc
    else
      let q := synthQuestion rule_by_id item
      if categories ≠ [] ∧ is_category_followup q then synthLoop rule_by_id categories rest acc
      else
        let acc' := if q ≠ "" ∧ q ∉ acc then acc ++ [q] else acc
        if 8 ≤ acc'.length then acc' else synthLoop rule_by_id categories rest acc'

/-- Whether the intake recorded `needs_flowchart` as an affirmative value. -/
def needsFlowchartB (intake : List (String × IVal)) : Bool :=
  sLower (intakeGetStr intake "needs_flowchart") = "yes" ||
  sLower (intakeGetStr intake "needs_flowchart") = "y" ||
  sLower (intakeGetStr intake "needs_flowchart") = "true"

/-- Whether a confirmed generated flowchart exists
(`bool(state.get("flowchart_mermaid")) and bool(state.get("flowchart_confirmed"))`). -/
def hasFlowchartB (state : TSGState) : Bool :=
  (state.flowchart_mermaid.getD "") ≠ "" && state.flowchart_confirmed

/-- Everything the checklist node computes before the routing decision: the
unioned rule list, the final evidence text handed to the language-model
service, the effective follow-up list (after the category filter and, when
the service returned none, synthesis) and the stored report.  Returns
`(rules, submission_text, followups, report)`. -/
def checklistPre (listRules : String → List Rule) (reportModel : ChecklistReport)
    (state : TSGState) : List Rule × String × List String × ChecklistReport :=
  let intake := state.intake
  let categories := normalize_categories state
  let application_type_label :=
    if categories ≠ [] then String.intercalate ", " categories
    else pyOrStr (state.application_type.getD "")
      (pyOrStr (intakeGetStr intake "application_type") "tsg_general")
  let rules : List Rule :=
    if categories ≠ [] then
      (categories.foldl (fun acc cat => buildSeen (listRules cat) acc) []).map Prod.snd
    else listRules application_type_label
  let rule_by_id := buildSeen rules []
  let submission_text0 := intakeGetStr intake "submission_text"
  let submission_text1 :=
    if pyStrip submission_text0 = "" then concat_documents state.documents
    else submission_text0
  let submission_text2 :=
    if categories ≠ [] then
      let cat_line := "Chubb AI category: " ++ String.intercalate ", " categories
      let rationale := pyStrip (state.classification_reasoning.getD "")
      let cat_line :=
        if rationale ≠ "" then cat_line ++ "\nCategory rationale: " ++ rationale
        else cat_line
      cat_line ++ "\n\n" ++ submission_text1
    else submission_text1
  let followup_answers := state.followup_answers
  let submission_text3 :=
    if followup_answers ≠ [] then
      let answer_chunks := followup_answers.filterMap fun qa =>
        let q_str := pyStrip qa.1
        let a_str := pyStrip qa.2
        if q_str = "" ∧ a_str = "" then none
        else some ("Follow-up Question: " ++ q_str ++ "\nAnswer: " ++ a_str)
      if answer_chunks ≠ [] then
        if pyStrip submission_text2 ≠ "" then
          pyStrip submission_text2 ++ "\n\n" ++ String.intercalate "\n\n" answer_chunks
        else String.intercalate "\n\n" answer_chunks
      else submission_text2
    else submission_text2
  let followups0 := reportModel.followup_questions
  let followups1 :=
    if categories ≠ [] ∧ followups0 ≠ [] then
      followups0.filter (fun q => !is_category_followup q)
    else followups0
  let report1 :=
    if categories ≠ [] ∧ followups0 ≠ [] then
      { reportModel with followup_questions := followups1 }
    else reportModel
  let synthStep : List String × ChecklistReport :=
    if followups1 = [] ∧ reportModel.checklist ≠ [] then
      let synthesized := synthLoop rule_by_id categories reportModel.checklist []
      if synthesized ≠ [] then (synthesized, { report1 with followup_questions := synthesized })
      else (followups1, report1)
    else (followups1, report1)
  (rules, submission_text3, synthStep.1, synthStep.2)

/-- The final follow-up list of one checklist pass: the report's questions
after the category filter and, when the service returned none, the
synthesized questions (the third component of `checklistPre`). -/
def checklistFollowups (listRules : String → List Rule)
    (reportModel : ChecklistReport) (state : TSGState) : List String :=
  (checklistPre listRules reportModel state).2.2.1

/-- Result of the checklist node: the rule list and evidence text passed to
the language-model service, plus the returned command. -/
structure ChecklistResult where
  rulesArg : List Rule := []
  submissionArg : String := ""
  cmd : Command
deriving Repr, DecidableEq

/-- Embedding of the `checklist` node.  `listRules`/`rulesPath` stand for the
rule repository and `reportModel` for the response of the (external)
language-model service to `generate_checklist_report`. -/
def checklist (listRules : String → List Rule) (rulesPath : String) (llm : LLM)
    (reportModel : ChecklistReport) (state : TSGState) : ChecklistResult :=
  let intake := state.intake
  let categories := normalize_categories state
  let application_type_label :=
    if categories ≠ [] then String.intercalate ", " categories
    else pyOrStr (state.application_type.getD "")
      (pyOrStr (intakeGetStr intake "application_type") "tsg_general")
  let pre := checklistPre listRules reportModel state
  let rules := pre.1
  let submission_text3 := pre.2.1
  let followups2 := pre.2.2.1
  let report2 := pre.2.2.2
  let overall := reportModel.overall_recommendation
  let checklist_items := reportModel.checklist
  let unknown_n := (checklist_items.filter (fun i => sUpper i.status = "UNKNOWN")).length
  let fail_n := (checklist_items.filter (fun i => sUpper i.status = "FAIL")).length
  let answered_before := state.followup_answers ≠ []
  let header :=
    if followups2 ≠ [] ∧ ¬answered_before then
      "Initial checklist complete. Initial recommendation: **" ++ overall ++
      "** (pending clarifications)"
    else "Checklist complete. Recommendation: **" ++ overall ++ "**"
  let summary_base := [header, "- FAIL: " ++ toString fail_n, "- UNKNOWN: " ++ toString unknown_n]
  let needs_flowchart := needsFlowchartB intake
  let has_flowchart := hasFlowchartB state
  let routed : String × String × List String :=
    if followups2 ≠ [] then
      if answered_before then
        ("REVIEW", "review",
         ["", "Follow-up questions remain. Proceeding to reviewer decision step (you may still update FAIL/UNKNOWN items before the reviewer finalizes)."])
      else
        ("NEED_INFO", "followup",
         ["", "I still need a few clarifications before we can approve:"] ++
         (followups2.take 5).map ("- " ++ ·))
    else if needs_flowchart && !has_flowchart then
      ("DIAGRAM", "diagram", ["", "Next: let's generate/confirm the required flow diagram."])
    else ("REVIEW", "review", ["", "Next: reviewer decision step."])
  let next_phase := routed.1
  let goto := routed.2.1
  let summary_lines := summary_base ++ routed.2.2
  let reasoning := pyOrStr (llm.last_reasoning_summary.getD "") report2.summary
  let base_update : Update :=
    { phase := some next_phase,
      checklist_report := some report2,
      messages := [⟨"assistant", String.intercalate "\n" summary_lines⟩],
      audit_log := [makeEvent "checklist_generated"
        [("overall", overall), ("fail", toString fail_n), ("unknown", toString unknown_n),
         ("rules_count", toString rules.length), ("rules_path", rulesPath),
         ("application_type", application_type_label),
         ("application_categories", String.intercalate ", " categories)]],
      checklist_reasoning := some (some reasoning),
      ui_reasoning_title := some (some "Checklist reasoning summary"),
      ui_reasoning_summary := some (some reasoning) }
  let updates :=
    if goto = "followup" then
      { base_update with followup_index := some 0, followup_answers := some [] }
    else base_update
  { rulesArg := rules, submissionArg := submission_text3,
    cmd := { update := updates, goto := goto } }

/-! Embedding of `graph/nodes/review.py`. -/

/-- The `_ALLOWED` decision normalization table. -/
def ALLOWED : List (String × String) :=
  [("approve", "APPROVE"), ("approved", "APPROVE"),
   ("conditional_approve", "CONDITIONAL_APPROVE"), ("conditional", "CONDITIONAL_APPROVE"),
   ("cond", "CONDITIONAL_APPROVE"), ("reject", "REJECT"), ("rejected", "REJECT"),
   ("need_info", "NEED_INFO"), ("need more info", "NEED_INFO"), ("info", "NEED_INFO")]

/-- The distinguished update-answers resume token `UPDATE_ANSWERS_TOKEN`. -/
def UPDATE_ANSWERS_TOKEN : String := "__TSG_UPDATE_FAIL_UNKNOWN__"

/-- Key normalization of the review node:
`raw.lower().replace("-", "_").replace(" ", "_")`. -/
def normalizeDecisionKey (raw : String) : String :=
  ⟨(sLower raw).data.map (fun c => if c = '-' ∨ c = ' ' then '_' else c)⟩

/-- The four-valued decision enum. -/
def DECISIONS : List String := ["APPROVE", "CONDITIONAL_APPROVE", "REJECT", "NEED_INFO"]

/-- Decision computed by the review node from a raw reviewer reply. -/
def decisionFor (raw : String) : String :=
  let key := normalizeDecisionKey raw
  match dget ALLOWED key with
  | some d => d
  | none => if sUpper key ∈ DECISIONS then sUpper key else "NEED_INFO"

/-- Python `needle in hay` substring test. -/
def subSearch (needle : List Char) : List Char → Bool
  | [] => needle.isPrefixOf []
  | c :: rest => needle.isPrefixOf (c :: rest) || subSearch needle rest

/-- Python `needle in hay` on strings. -/
def strContains (hay needle : String) : Bool := subSearch needle.data hay.data

/-- Embedding of `_format_evidence_line`. -/
def format_evidence_line (ev : Evidence) : String :=
  let source := pyStrip (pyOrStr ev.source ev.doc_id)
  let excerpt := pyStrip ev.excerpt
  let parts :=
    (if source ≠ "" then
      [match ev.page with
       | some p => source ++ " p." ++ toString p
       | none => source]
     else []) ++
    (if excerpt ≠ "" then ["\"" ++ excerpt ++ "\""] else [])
  pyStripSet [' ', '—'] (String.intercalate " — " parts)

/-- Severity rank map `{"BLOCKER": 0, "WARN": 1, "INFO": 2}.get(sev, 3)`. -/
def sevRank (severity : String) : Nat :=
  if severity = "BLOCKER" then 0
  else if severity = "WARN" then 1
  else if severity = "INFO" then 2
  else 3

/-- Stable sort by severity rank, realized as bucket concatenation (the rank
domain is `{0,1,2,3}` and Python's `sort` is stable). -/
def stableBySevRank (items : List ChecklistItem) : List ChecklistItem :=
  (items.filter (fun it => sevRank (sUpper it.severity) = 0)) ++
  (items.filter (fun it => sevRank (sUpper it.severity) = 1)) ++
  (items.filter (fun it => sevRank (sUpper it.severity) = 2)) ++
  (items.filter (fun it => sevRank (sUpper it.severity) = 3))

/-- Embedding of `_ai_recommendation_block`. -/
def ai_recommendation_block (state : TSGState) : String :=
  match state.checklist_report with
  | none =>
    "AI suggested decision: **NEED_INFO**\n\nReasoning: No checklist report was generated."
  | some report =>
    let overall := pyOrStr (pyStrip report.overall_recommendation) "NEED_INFO"
    let summary := pyStrip report.summary
    let lines1 := ["AI suggested decision: **" ++ overall ++ "**"]
    let lines2 :=
      if summary ≠ "" then lines1 ++ ["", "Reasoning:", "- " ++ summary] else lines1
    let lines3 :=
      if report.blocking_issues ≠ [] then
        lines2 ++ ["", "Key issues:"] ++
          (((report.blocking_issues.map pyStrip).filter (· ≠ "")).take 5).map ("- " ++ ·)
      else lines2
    let failing := report.checklist.filter fun it =>
      sUpper it.status = "FAIL" || sUpper it.status = "UNKNOWN"
    let ranked := stableBySevRank failing
    let evidence_lines : List String := List.flatten <| (ranked.take 3).map fun item =>
      let title := pyOrStr (pyStrip (pyOrStr item.title item.rule_id)) "Checklist item"
      let rule_id := pyStrip item.rule_id
      let severity := sUpper item.severity
      let rationale := pyStrip item.rationale
      let head := "- " ++ severity ++ ": " ++ title
      let head := if rule_id ≠ "" then head ++ " (" ++ rule_id ++ ")" else head
      let head := if rationale ≠ "" then head ++ " — " ++ rationale else head
      [head] ++
        (match item.evidence with
         | ev :: _ =>
           let ev_line := format_evidence_line ev
           if ev_line ≠ "" then ["  - Evidence: " ++ ev_line] else []
         | [] => [])
    let lines4 :=
      if evidence_lines ≠ [] then lines3 ++ ["", "Evidence (highlights):"] ++ evidence_lines
      else lines3
    let lines5 :=
      if lines4.length = 1 then
        lines4 ++ ["", "Reasoning: Checklist report did not include a summary or issues list."]
      else lines4
    String.intercalate "\n" lines5

/-- Embedding of `_dedupe_keep_order`. -/
def dedupe_keep_order (items : List String) : List String :=
  items.foldl (fun out x =>
    let key := pyStrip x
    if key = "" ∨ key ∈ out then out else out ++ [key]) []

/-- Embedding of `_synthesize_update_questions`. -/
def synthesize_update_questions (state : TSGState) : List String :=
  match state.checklist_report with
  | none => []
  | some report =>
    let followups := (report.followup_questions.map pyStrip).filter (· ≠ "")
    let checklist_items := report.checklist
    let questions0 := followups
    let questions1 :=
      if checklist_items ≠ [] then
        let ranked := stableBySevRank (checklist_items.filter fun it =>
          sUpper it.status = "FAIL" || sUpper it.status = "UNKNOWN")
        let existing_text := sLower (String.intercalate "\n" questions0)
        ranked.foldl (fun qs item =>
          let rule_id := pyStrip item.rule_id
          let title := pyStrip (pyOrStr item.title (pyOrStr rule_id "this requirement"))
          let severity := pyOrStr (pyStrip (sUpper item.severity)) "INFO"
          let missing_bits := (item.missing.map pyStrip).filter (· ≠ "")
          if rule_id ≠ "" ∧ strContains existing_text (sLower rule_id) then qs
          else
            let head :=
              if rule_id ≠ "" then rule_id ++ " (" ++ severity ++ ") — " ++ title
              else "(" ++ severity ++ ") — " ++ title
            let q :=
              if missing_bits ≠ [] then
                head ++ ": Please provide/update: " ++
                  String.intercalate "; " (missing_bits.take 3)
              else head ++ ": Please provide additional details/evidence to address this requirement."
            qs ++ [q]) questions0
      else questions0
    dedupe_keep_order questions1

/-- Embedding of the `review` node. -/
def review (llm : LLM) (state : TSGState) (answer : String) : NodeResult :=
  if state.reviewer_decision.isSome then
    { cmd := { update := { phase := some "DONE" }, goto := "finalize" } }
  else
    let ai_block := ai_recommendation_block state
    let payload : Payload :=
      { ptype := "review_decision",
        question := ai_block ++
          "\n\nReviewer decision? (APPROVE / CONDITIONAL_APPROVE / REJECT / NEED_INFO)",
        hint := "In production this would come from a separate reviewer role; here it's simulated in-chat." }
    let raw := pyStrip answer
    if raw = UPDATE_ANSWERS_TOKEN then
      let questions := synthesize_update_questions state
      let base := state.checklist_report.getD {}
      let report1 : ChecklistReport := { base with followup_questions := questions }
      let items := report1.checklist
      let fail_n := (items.filter (fun i => sUpper i.status = "FAIL")).length
      let unknown_n := (items.filter (fun i => sUpper i.status = "UNKNOWN")).length
      { asked := some payload,
        cmd :=
        { update :=
            { phase := some "NEED_INFO",
              checklist_report := some report1,
              followup_index := some 0,
              ui_reasoning_title := some (some "Update answers"),
              ui_reasoning_summary := some (some
                ("- You chose to update answers for remaining FAIL/UNKNOWN checklist items.\n" ++
                 "- Next: I'll re-ask the relevant questions and then re-run the checklist.")),
              messages := [⟨"assistant",
                "Okay — let's update the remaining FAIL/UNKNOWN items before reviewer approval. " ++
                "I'll ask the relevant questions again now."⟩],
              audit_log := [makeEvent "user_requested_updates"
                [("fail", toString fail_n), ("unknown", toString unknown_n),
                 ("questions", toString questions.length)]] },
          goto := "followup" } }
    else
      let decision := decisionFor raw
      let ui_reasoning := (llm.summarize_reasoning "review_decision" "Reviewer decision" raw).getD
        ("- Reviewer decision recorded: **" ++ decision ++ "**.\n" ++
         "- Next: the case will be finalized and an audit export will be available.")
      { asked := some payload,
        cmd :=
        { update :=
            { reviewer_decision := some decision,
              phase := some "DONE",
              ui_reasoning_title := some (some "Reviewer decision reasoning"),
              ui_reasoning_summary := some (some ui_reasoning),
              messages := [⟨"assistant", "Reviewer decision recorded: **" ++ decision ++ "**"⟩],
              audit_log := [makeEvent "reviewer_decision"
                [("decision", decision), ("raw", raw)]] },
          goto := "finalize" } }

/-! Embedding of `graph/nodes/diagram.py`. -/

/-- Resume value delivered to the diagram node's interrupts: the UI sends a
plain string or a dict of string-valued metadata. -/
inductive PyAns where
  | str (v : String)
  | dict (d : List (String × String))
deriving Repr, DecidableEq

/-- Python `str(answer)` (dict repr shape; its exact text never matters to a
branch condition). -/
def pyAnsStr : PyAns → String
  | .str v => v
  | .dict d =>
    "\x7b" ++
      String.intercalate ", " (d.map fun kv => "'" ++ kv.1 ++ "': '" ++ kv.2 ++ "'") ++
    "\x7d"

/-- Embedding of `_has_uploaded_diagram`. -/
def has_uploaded_diagram (state : TSGState) : Bool :=
  match state.diagram_upload with
  | some u => u.path ≠ "" || u.name ≠ ""
  | none => false

/-- Embedding of `_has_confirmed_mermaid`. -/
def has_confirmed_mermaid (state : TSGState) : Bool :=
  (state.flowchart_mermaid.getD "") ≠ "" && state.flowchart_confirmed

/-- Embedding of `_diagram_complete`. -/
def diagram_complete (state : TSGState) : Bool :=
  has_uploaded_diagram state || has_confirmed_mermaid state

/-- Embedding of `_diagram_answer_for_followup`. -/
def diagram_answer_for_followup (state : TSGState) : String :=
  let uploadAns : Option String :=
    match state.diagram_upload with
    | some upload =>
      if upload.path ≠ "" || upload.name ≠ "" then
        let name := pyStrip (pyOrStr upload.name "diagram")
        let mime := pyStrip upload.mime_type
        let path := pyStrip upload.path
        let sha := pyStrip upload.sha256
        let details :=
          (if mime ≠ "" then [mime] else []) ++
          (match upload.size_bytes with
           | some sz => [toString sz ++ " bytes"]
           | none => []) ++
          (if path ≠ "" then ["path: " ++ path] else []) ++
          (if sha ≠ "" then ["sha256: " ++ sha] else [])
        let suffix := if details ≠ [] then " (" ++ String.intercalate "; " details ++ ")" else ""
        some ("Diagram uploaded: " ++ name ++ suffix)
      else none
    | none => none
  match uploadAns with
  | some a => a
  | none =>
    let mermaid := pyStrip (state.flowchart_mermaid.getD "")
    if mermaid ≠ "" && state.flowchart_confirmed then
      "Diagram generated and confirmed. Mermaid:\n\n```mermaid\n" ++ mermaid ++ "\n```"
    else "Diagram provided."

/-- The `{**state, **updates}` view `_route_after_diagram` hands to
`_diagram_answer_for_followup` (that helper reads only the diagram
evidence fields). -/
def mergedForAnswer (state : TSGState) (u : Update) : TSGState :=
  { state with
    diagram_upload :=
      match u.diagram_upload with
      | some f => some f
      | none => state.diagram_upload
    flowchart_mermaid :=
      match u.flowchart_mermaid with
      | some m => some m
      | none => state.flowchart_mermaid
    flowchart_confirmed := u.flowchart_confirmed.getD state.flowchart_confirmed }

/-- Embedding of `_route_after_diagram`. -/
def route_after_diagram (state : TSGState) (updates : Update) : Command :=
  let updates :=
    if updates.diagram_input_mode = none then
      { updates with diagram_input_mode := some none }
    else updates
  let fallback : Command :=
    { update := { updates with phase := some "REVIEW" }, goto := "review" }
  match state.pending_diagram_followup with
  | some pending =>
    if pending.question ≠ "" then
      let idx := pending.index
      let question := pyStrip pending.question
      let answers :=
        if question ≠ "" then
          dset state.followup_answers question
            (diagram_answer_for_followup (mergedForAnswer state updates))
        else state.followup_answers
      let next_idx := max state.followup_index (idx + 1)
      { update :=
          { updates with
            phase := some "NEED_INFO",
            followup_answers := some answers,
            followup_index := some next_idx,
            pending_diagram_followup := some none },
        goto := "followup" }
    else fallback
  | none => fallback

/-- Embedding of the `diagram` node. -/
def diagram (llm : LLM) (state : TSGState) (answer : PyAns) : NodeResult :=
  if diagram_complete state then
    { cmd := route_after_diagram state {} }
  else
    let mode := state.diagram_input_mode
    if mode ≠ some "upload" ∧ mode ≠ some "generate" then
      let payload : Payload :=
        { ptype := "diagram_mode",
          question := "A diagram is required. How would you like to provide it?",
          hint := "If you upload, PNG/JPG/SVG/PDF/Draw.io are recommended. If you generate, I'll draft a Mermaid diagram for your confirmation." }
      let raw : String :=
        match answer with
        | .dict d =>
          pyOrStr ((dget d "value").getD "")
            (pyOrStr ((dget d "mode").getD "") ((dget d "answer").getD ""))
        | .str v => v
      let mode_str := sLower (pyStrip raw)
      let mode' :=
        if mode_str = "1" ∨ mode_str = "upload" ∨ mode_str = "file" ∨ mode_str = "upload_file"
        then "upload"
        else "generate"
      { asked := some payload,
        cmd :=
        { update :=
            { diagram_input_mode := some (some mode'),
              messages := [⟨"assistant",
                "Okay. " ++
                (if mode' = "upload" then "Please upload the diagram file next."
                 else "Next I'll ask for the process steps so I can draft a Mermaid diagram.")⟩],
              audit_log := [makeEvent "diagram_mode_selected" [("mode", mode')]] },
          goto := "diagram" } }
    else if mode = some "upload" then
      if !has_uploaded_diagram state then
        let payload : Payload :=
          { ptype := "diagram_upload",
            question := "Upload your diagram file.",
            hint := "Recommended: PNG/JPG/SVG/PDF/Draw.io. The file will be stored and referenced for audit." }
        let meta : DiagramFile :=
          match answer with
          | .dict d =>
            { name := (dget d "name").getD "",
              mime_type := (dget d "mime_type").getD "",
              path := (dget d "path").getD "",
              sha256 := (dget d "sha256").getD "" }
          | .str v => { name := v, path := v }
        let updates : Update :=
          { diagram_upload := some meta,
            ui_reasoning_title := some (some "Diagram evidence — uploaded file"),
            ui_reasoning_summary := some (some
              ("- Stored a reference to your uploaded diagram file as evidence.\n" ++
               "- Next: returning to the workflow.")),
            messages := [⟨"assistant", "Thanks — diagram file received and recorded."⟩],
            audit_log := [makeEvent "diagram_file_uploaded"
              [("name", sTake meta.name 120), ("mime_type", sTake meta.mime_type 120),
               ("size_bytes", match meta.size_bytes with
                 | some sz => toString sz
                 | none => "None")]] }
        { asked := some payload, cmd := route_after_diagram state updates }
      else
        { cmd := route_after_diagram state {} }
    else
      if (state.process_description.getD "") = "" then
        let payload : Payload :=
          { ptype := "process_description",
            question := "Please describe the process in 3–8 steps (one per line).",
            hint := "Include: actors/systems, decision points, and where AI/LLM/tooling is used." }
        let desc := pyStrip (pyAnsStr answer)
        let ui_reasoning :=
          (llm.summarize_reasoning "diagram_process" (pyStrip payload.question) desc).getD
            ("- Captured the process steps you described.\n" ++
             "- Next: we'll generate a draft Mermaid flowchart and ask you to confirm it.")
        { asked := some payload,
          cmd :=
          { update :=
              { process_description := some desc,
                ui_reasoning_title := some (some "Diagram reasoning — process description"),
                ui_reasoning_summary := some (some ui_reasoning),
                messages := [⟨"assistant", "Thanks — generating a draft flowchart now."⟩],
                audit_log := [makeEvent "process_description_collected"
                  [("preview", sTake desc 120)]] },
            goto := "diagram" } }
      else if (state.flowchart_mermaid.getD "") = "" then
        let desc := state.process_description.getD ""
        let mermaid := llm.generate_flowchart desc
        { cmd :=
          { update :=
              { flowchart_mermaid := some mermaid,
                flowchart_confirmed := some false,
                flowchart_reasoning := some llm.last_reasoning_summary,
                ui_reasoning_title := some (some "Diagram reasoning — draft flowchart"),
                ui_reasoning_summary := some (some (pyOrStr (llm.last_reasoning_summary.getD "")
                  "Generated a draft Mermaid flowchart from your described steps. Please confirm it matches the real process.")),
                messages := [⟨"assistant",
                  "Draft flowchart (Mermaid) generated. Please review and confirm.\n\n" ++
                  "```mermaid\n" ++ mermaid ++ "\n```\n\n" ++
                  "Reply 'yes' to confirm, or paste corrections."⟩],
                audit_log := [makeEvent "flowchart_generated"
                  [("chars", toString mermaid.length)]] },
            goto := "diagram" } }
      else if !state.flowchart_confirmed then
        let payload : Payload :=
          { ptype := "flowchart_confirm",
            question := "Is the flowchart correct? Reply yes / no (or paste the corrected steps).",
            hint := "If you paste corrected steps, I'll regenerate the Mermaid." }
        let ans := sLower (pyStrip (pyAnsStr answer))
        if ans = "yes" ∨ ans = "y" ∨ ans = "correct" ∨ ans = "confirmed" then
          let ui_reasoning :=
            (llm.summarize_reasoning "diagram_confirm" (pyStrip payload.question)
              (pyAnsStr answer)).getD
              ("- Flowchart confirmed as accurate.\n- Next: returning to the workflow.")
          let updates : Update :=
            { flowchart_confirmed := some true,
              ui_reasoning_title := some (some "Diagram reasoning — confirmation"),
              ui_reasoning_summary := some (some ui_reasoning),
              messages := [⟨"assistant", "Confirmed. Diagram captured."⟩],
              audit_log := [makeEvent "flowchart_confirmed" []] }
          { asked := some payload, cmd := route_after_diagram state updates }
        else
          let new_desc := pyStrip (pyAnsStr answer)
          let ui_reasoning :=
            (llm.summarize_reasoning "diagram_confirm" (pyStrip payload.question) new_desc).getD
              ("- Received your corrections for the flowchart.\n" ++
               "- Next: regenerating the Mermaid diagram from your updated steps.")
          let new_mermaid := llm.generate_flowchart new_desc
          { asked := some payload,
            cmd :=
            { update :=
                { process_description := some new_desc,
                  flowchart_mermaid := some new_mermaid,
                  flowchart_confirmed := some false,
                  flowchart_reasoning := some llm.last_reasoning_summary,
                  ui_reasoning_title := some (some "Diagram reasoning — corrections"),
                  ui_reasoning_summary := some (some ui_reasoning),
                  messages := [⟨"assistant",
                    "Updated draft generated. Please confirm:\n\n" ++
                    "```mermaid\n" ++ new_mermaid ++ "\n```\n\n" ++
                    "Reply 'yes' to confirm, or paste more corrections."⟩],
                  audit_log := [makeEvent "flowchart_regenerated"
                    [("chars", toString new_mermaid.length)]] },
              goto := "diagram" } }
      else
        { cmd := route_after_diagram state {} }

/-! Embedding of `graph/nodes/intake.py`. -/

/-- The `_FIELD_HELP` table: field name to `(q, hint)`. -/
def FIELD_HELP : List (String × (String × String)) :=
  [ ("application_type",
     ("What type of submission is this? (e.g., Consumer of Internal AI, Consumer of External AI, Internal AI Builder)",
      "If you're unsure, describe the request and I'll classify it.")),
    ("project_address",
     ("What is the project address?", "Street address + city is enough for intake.")),
    ("apn",
     ("What is the APN (Assessor's Parcel Number)?", "Example format: 123-456-789.")),
    ("bsn",
     ("What is the BSN (Building/Business Serial Number, if applicable)?",
      "If you don't have it, reply 'N/A'.")),
    ("scope_summary",
     ("Please summarize the scope in 2–5 bullet points.",
      "Focus on what is being built/changed and the key systems involved.")),
    ("submission_text",
     ("Please paste the main submission text (or a short excerpt).",
      "You can paste directly into chat. For large docs, use the sidebar upload.")),
    ("needs_flowchart",
     ("Do we need a process/flow diagram for this approval? (yes/no)",
      "If unsure, answer 'maybe' and we'll decide after checklist evaluation.")) ]

/-- The `_APPLICATION_TYPES` list (canonical plus legacy/demo types). -/
def APPLICATION_TYPES : List String :=
  ["Consumer of Internal AI", "Consumer of External AI", "Internal AI Builder",
   "building_permit", "tsg_general"]

/-- Replace each maximal whitespace run by a single space
(`re.sub(r"\s+", " ", v)`). -/
def collapseWsGo : List Char → Bool → List Char
  | [], _ => []
  | c :: rest, inWs =>
    if pyIsWs c then
      if inWs then collapseWsGo rest true else ' ' :: collapseWsGo rest true
    else c :: collapseWsGo rest false

/-- Whitespace-run collapsing on strings. -/
def collapseWs (s : String) : String := ⟨collapseWsGo s.data false⟩

/-- Embedding of `_normalize_application_type` (`casefold` is `lower` on the
ASCII/CJK inputs in play). -/
def normalize_application_type (value : String) : String :=
  let v := pyStripSet ['\''] (pyStripSet ['"'] (pyStrip value))
  let v := collapseWs v
  let v : String := ⟨v.data.map (fun c => if c = '_' ∨ c = '-' then ' ' else c)⟩
  let v := collapseWs v
  sLower v

/-- Embedding of `_canonical_application_type`. -/
def canonical_application_type (value : String) : Option String :=
  let norm := normalize_application_type value
  if norm = "" then none
  else APPLICATION_TYPES.find? (fun c => normalize_application_type c = norm)

/-- Embedding of `_extract_ai_categories` (intake): the same algorithm and
category list as the checklist node's `_extract_categories_from_text`. -/
def extract_ai_categories (text : String) : List String :=
  extract_categories_from_text text

/-- Embedding of `_pick_primary_category`. -/
def pick_primary_category (categories : List String) : String :=
  if categories = [] then "tsg_general"
  else if "Internal AI Builder" ∈ categories then "Internal AI Builder"
  else categories.headD ""

/-- Embedding of `_last_user_text`. -/
def last_user_text (state : TSGState) : String :=
  match state.messages.reverse.find? (fun m => m.role = "user") with
  | some m => m.content
  | none => ""

/-- Match `application[_\s-]*type\s*[:=]\s*(.+)` at the current position.
Result: `none` = no match here; `some none` = the pattern matches only by
backtracking `\s*` into an all-whitespace capture, on which the source then
crashes (`"".splitlines()[0]` raises `IndexError`); `some (some cap)` = a
match whose capture is `cap` (greedy `.+`, never containing a newline). -/
def appTypeAt (cs : List Char) : Option (Option (List Char)) :=
  match litMatch "application".data none cs with
  | none => none
  | some (_, cs1) =>
    let cs2 := (skipRun pySep none cs1).2
    match litMatch "type".data none cs2 with
    | none => none
    | some (_, cs3) =>
      let cs4 := (skipRun pyIsWs none cs3).2
      match cs4 with
      | c :: cs5 =>
        if c = ':' ∨ c = '=' then
          let ws := cs5.takeWhile pyIsWs
          let rest := cs5.dropWhile pyIsWs
          match rest with
          | _ :: _ => some (some (rest.takeWhile (· ≠ '\n')))
          | [] => if ws.any (· ≠ '\n') then some none else none
        else none
      | [] => none

/-- Leftmost `re.search` for the `application_type` pattern. -/
def findAppType (cs : List Char) : Option (Option (List Char)) :=
  match appTypeAt cs with
  | some r => some r
  | none =>
    match cs with
    | [] => none
    | _ :: rest => findAppType rest

/-- Match `\bTAG\b\s*[:=]?\s*([0-9\-]+)` at the current position (used for
APN and BSN; `TAG` starts with a word character, so the leading boundary is
`prev` not being a word character). -/
def tagDigitsAt (tag : String) (prev : Option Char) (cs : List Char) : Option (List Char) :=
  let pw := match prev with | some c => isWordChar c | none => false
  if pw then none
  else
    match litMatch tag.data prev cs with
    | none => none
    | some (_, cs1) =>
      let nw := match cs1 with | c :: _ => isWordChar c | [] => false
      if nw then none
      else
        let cs2 := (skipRun pyIsWs none cs1).2
        let cs3 := match cs2 with
          | c :: rest => if c = ':' ∨ c = '=' then rest else cs2
          | [] => cs2
        let cs4 := (skipRun pyIsWs none cs3).2
        let digits := cs4.takeWhile (fun c => c.isDigit || c = '-')
        if digits = [] then none else some digits

/-- Leftmost `re.search` for the APN/BSN patterns. -/
def findTagDigits (tag : String) : Option Char → List Char → Option (List Char)
  | prev, cs =>
    match tagDigitsAt tag prev cs with
    | some d => some d
    | none =>
      match cs with
      | [] => none
      | c :: rest => findTagDigits tag (some c) rest

/-- Match `needs[_\s-]*flowchart\s*[:=]\s*(yes|no|maybe)` at the current
position. -/
def needsFlowchartAt (cs : List Char) : Bool :=
  match litMatch "needs".data none cs with
  | none => false
  | some (_, cs1) =>
    let cs2 := (skipRun pySep none cs1).2
    match litMatch "flowchart".data none cs2 with
    | none => false
    | some (_, cs3) =>
      let cs4 := (skipRun pyIsWs none cs3).2
      match cs4 with
      | c :: cs5 =>
        if c = ':' ∨ c = '=' then
          let cs6 := (skipRun pyIsWs none cs5).2
          (litMatch "yes".data none cs6).isSome || (litMatch "no".data none cs6).isSome ||
            (litMatch "maybe".data none cs6).isSome
        else false
      | [] => false

/-- Search for the `needs_flowchart` pattern anywhere. -/
def needsFlowchartSearch : List Char → Bool
  | [] => false
  | c :: rest => needsFlowchartAt (c :: rest) || needsFlowchartSearch rest

/-- First occurrence of `(yes|no|maybe)` (case-insensitive), lowercased, as
the second `re.search` of the `needs_flowchart` parse returns it. -/
def scanYNM : List Char → Option String
  | [] => none
  | c :: rest =>
    if (litMatch "yes".data none (c :: rest)).isSome then some "yes"
    else if (litMatch "no".data none (c :: rest)).isSome then some "no"
    else if (litMatch "maybe".data none (c :: rest)).isSome then some "maybe"
    else scanYNM rest

/-- The `found` dict of `_try_parse_fields`. -/
structure ParsedFields where
  application_type : Option String := none
  application_categories : Option (List String) := none
  apn : Option String := none
  bsn : Option String := none
  needs_flowchart : Option String := none
deriving Repr, DecidableEq

/-- Embedding of `_try_parse_fields`.  The `.error` case is the latent
`IndexError` of `raw.splitlines()[0]` on an all-whitespace capture. -/
def try_parse_fields (text : String) : Except Unit ParsedFields :=
  if text = "" then .ok {}
  else
    let step1 : Except Unit ParsedFields :=
      match findAppType text.data with
      | some none => .error ()
      | some (some capture) =>
        let raw := pyStrip (⟨capture⟩ : String)
        let raw := pyRstripSet ['.', ',', ';'] (pyStrip raw)
        let cats := extract_ai_categories raw
        if cats ≠ [] then
          .ok { application_categories := some cats,
                application_type := some (String.intercalate ", " cats) }
        else
          .ok { application_type := some ((canonical_application_type raw).getD raw) }
      | none => .ok {}
    match step1 with
    | .error e => .error e
    | .ok f1 =>
      let f2 := match findTagDigits "apn" none text.data with
        | some d => { f1 with apn := some (pyStrip (⟨d⟩ : String)) }
        | none => f1
      let f3 := match findTagDigits "bsn" none text.data with
        | some d => { f2 with bsn := some (pyStrip (⟨d⟩ : String)) }
        | none => f2
      let f4 :=
        if needsFlowchartSearch text.data then
          match scanYNM text.data with
          | some v => { f3 with needs_flowchart := some v }
          | none => f3
        else f3
      let cats := extract_ai_categories text
      let f5 :=
        if cats ≠ [] then
          { f4 with application_categories := some cats,
                    application_type := some (String.intercalate ", " cats) }
        else f4
      let f6 :=
        if f5.application_type.isSome ∧ f5.application_categories = none then
          let at5 := f5.application_type.getD ""
          { f5 with application_type := some ((canonical_application_type at5).getD at5) }
        else f5
      .ok f6

/-- `intake_data.update(parsed)`. -/
def applyParsed (d : List (String × IVal)) (p : ParsedFields) : List (String × IVal) :=
  let d := match p.application_type with
    | some v => dset d "application_type" (.s v)
    | none => d
  let d := match p.application_categories with
    | some v => dset d "application_categories" (.ls v)
    | none => d
  let d := match p.apn with
    | some v => dset d "apn" (.s v)
    | none => d
  let d := match p.bsn with
    | some v => dset d "bsn" (.s v)
    | none => d
  match p.needs_flowchart with
  | some v => dset d "needs_flowchart" (.s v)
  | none => d

/-- Embedding of `_required_fields_for`. -/
def required_fields_for (application_type : String) : List String :=
  if application_type = "building_permit" then
    ["project_address", "apn", "bsn", "scope_summary", "submission_text", "needs_flowchart"]
  else ["submission_text"]

/-- Missing-field computation
`[f for f in required if f not in intake or intake.get(f) in (None, "")]`. -/
def missingOf (required : List String) (d : List (String × IVal)) : List String :=
  required.filter fun f =>
    match dget d f with
    | none => true
    | some (.s v) => v = ""
    | some (.ls _) => false

/-- Python `a or b` on optional strings; an empty string and `None` behave
identically in every downstream read, so they are collapsed. -/
def pyOrOpt (a b : Option String) : Option String :=
  if (a.getD "") ≠ "" then a else b

/-- Result dict of `_classify_from_submission` plus the dict it mutates. -/
structure ClassifyOut where
  application_type : Option String := none
  application_categories : List String := []
  classification_reason : Option String := none
  intake : List (String × IVal) := []
deriving Repr, DecidableEq

/-- Embedding of `_classify_from_submission`. -/
def classify_from_submission (llm : LLM) (intake_data : List (String × IVal)) :
    ClassifyOut :=
  let submission_text := pyStrip (intakeGetStr intake_data "submission_text")
  if submission_text = "" then
    { application_type :=
        (match dget intake_data "application_type" with
         | some (.s v) => some v
         | _ => none),
      application_categories :=
        (match dget intake_data "application_categories" with
         | some (.ls cs) => cs
         | _ => []),
      intake := intake_data }
  else
    let existing_cats := match dget intake_data "application_categories" with
      | some (.ls cs) => cs
      | _ => []
    if existing_cats ≠ [] then
      { application_type := some (pick_primary_category existing_cats),
        application_categories := existing_cats,
        intake := intake_data }
    else
      let guess := llm.classify_application_type submission_text
      let classification_reason := guess.rationale
      let guess_text := guess.application_type
      let cats0 := extract_ai_categories guess_text
      let cats := if cats0 = [] then extract_ai_categories submission_text else cats0
      if cats ≠ [] then
        let intake' := dset (dset intake_data "application_categories" (.ls cats))
          "application_type" (.s (String.intercalate ", " cats))
        { application_type := some (pick_primary_category cats),
          application_categories := cats,
          classification_reason := classification_reason,
          intake := intake' }
      else
        let canonical := pyOrStr ((canonical_application_type guess_text).getD "") guess_text
        let intake' := dset intake_data "application_type" (.s canonical)
        { application_type := some canonical,
          application_categories := [],
          classification_reason := classification_reason,
          intake := intake' }

/-- The classification step the intake node runs once `submission_text` is
known: `primary_type = classified.get("application_type") or primary_type`,
categories preferred when found (factored out of `intake`). -/
def intakeClassifyStep (llm : LLM) (primary_type : Option String)
    (categories : List String) (intake_data : List (String × IVal)) :
    Option String × List String × List (String × IVal) × Option String :=
  if pyStrip (intakeGetStr intake_data "submission_text") ≠ "" then
    let classified := classify_from_submission llm intake_data
    let cats2 := classified.application_categories
    if cats2 ≠ [] then
      (pyOrOpt classified.application_type primary_type, cats2,
       classified.intake, classified.classification_reason)
    else
      (pyOrOpt classified.application_type primary_type, categories,
       classified.intake, classified.classification_reason)
  else (primary_type, categories, intake_data, none)

/-- The post-answer step of the intake node: after storing the answered
field, if it was `submission_text`, classify now and recompute the required
fields (factored out of `intake`).  Returns
`(primary_type, categories, intake_data, classification_reason,
required_fields)`. -/
def intakePostAnswer (llm : LLM) (field : String) (answer_str : String)
    (primary_type1 : Option String) (categories3 : List String)
    (intake_data4 : List (String × IVal)) (classification_reason1 : Option String)
    (required_fields1 : List String) :
    Option String × List String × List (String × IVal) × Option String × List String :=
  if field = "submission_text" ∧ pyStrip answer_str ≠ "" then
    let classified := classify_from_submission llm intake_data4
    let cats2 := classified.application_categories
    let primary' := pyOrOpt classified.application_type primary_type1
    let categories' := if cats2 ≠ [] then cats2 else categories3
    (primary', categories', classified.intake, classified.classification_reason,
     required_fields_for (primary'.getD "tsg_general"))
  else (primary_type1, categories3, intake_data4, classification_reason1, required_fields1)

/-- Everything the intake node computes before deciding whether a field is
still missing: field parsing merge, category bookkeeping, classification and
required/missing field recomputation.  Returns `(primary_type, categories,
intake_data, classification_reason, required_fields, missing_fields)`. -/
def intakePre (llm : LLM) (state : TSGState) (parsed : ParsedFields) :
    Option String × List String × List (String × IVal) × Option String ×
      List String × List String :=
  let intake_data := applyParsed state.intake parsed
  let primary_type0 : Option String :=
    pyOrOpt state.application_type (some (intakeGetStr intake_data "application_type"))
  let categories0 := (state.application_categories).getD []
  let categories1 :=
    if categories0 = [] then
      match dget intake_data "application_categories" with
      | some (.ls cs) => cs
      | _ => []
    else categories0
  let step2 : List String × List (String × IVal) :=
    if categories1 = [] ∧ (primary_type0.getD "") ≠ "" then
      let cats := extract_ai_categories (primary_type0.getD "")
      if cats ≠ [] then
        (cats, dset (dset intake_data "application_categories" (.ls cats))
          "application_type" (.s (String.intercalate ", " cats)))
      else ([], intake_data)
    else (categories1, intake_data)
  let categories2 := step2.1
  let intake_data2 := step2.2
  let step3 := intakeClassifyStep llm primary_type0 categories2 intake_data2
  let primary_type1 := step3.1
  let categories3 := step3.2.1
  let intake_data3 := step3.2.2.1
  let classification_reason1 := step3.2.2.2
  let required_fields0 := state.required_fields
  let required_fields1 :=
    if required_fields0 = [] then
      if pyStrip (intakeGetStr intake_data3 "submission_text") = "" then
        ["submission_text"]
      else required_fields_for (primary_type1.getD "tsg_general")
    else required_fields0
  let missing_fields1 := missingOf required_fields1 intake_data3
  (primary_type1, categories3, intake_data3, classification_reason1,
   required_fields1, missing_fields1)

/-- Body of the `intake` node after a successful `_try_parse_fields` call
(factored out of `intake` so the parse outcome is a parameter). -/
def intakeWithParsed (llm : LLM) (state : TSGState) (answer : String)
    (parsed : ParsedFields) : NodeResult :=
    let pre := intakePre llm state parsed
    let primary_type1 := pre.1
    let categories3 := pre.2.1
    let intake_data3 := pre.2.2.1
    let classification_reason1 := pre.2.2.2.1
    let required_fields1 := pre.2.2.2.2.1
    let missing_fields1 := pre.2.2.2.2.2
    if missing_fields1 ≠ [] then
      let field := missing_fields1.headD ""
      let meta := (dget FIELD_HELP field).getD ("Please provide: " ++ field, "")
      let payload : Payload :=
        { ptype := "intake_question", field := some field,
          question := meta.1, hint := meta.2 }
      let answer_str := pyStrip answer
      let intake_data4 := dset intake_data3 field (.s answer_str)
      let step4 := intakePostAnswer llm field answer_str primary_type1 categories3
        intake_data4 classification_reason1 required_fields1
      let primary_type2 := step4.1
      let categories4 := step4.2.1
      let intake_data5 := step4.2.2.1
      let classification_reason2 := step4.2.2.2.1
      let required_fields2 := step4.2.2.2.2
      let missing_fields2 := missingOf required_fields2 intake_data5
      let ui_reasoning :=
        (llm.summarize_reasoning "intake" (pyStrip meta.1) answer_str).getD
          (if missing_fields2 ≠ [] then
            "- Recorded **" ++ field ++ "** from your answer.\n" ++
            "- Next: we still need " ++ toString missing_fields2.length ++
            " more intake item(s) before running the checklist."
          else
            "- Recorded **" ++ field ++ "** from your answer.\n" ++
            "- Next: intake is complete, so we'll run the checklist evaluation.")
      let next_goto := if missing_fields2 ≠ [] then "intake" else "checklist"
      let next_phase := if missing_fields2 ≠ [] then "INTAKE" else "CHECKLIST"
      { asked := some payload,
        cmd :=
            { update :=
                { application_type := some primary_type2,
                  application_categories := some categories4,
                  intake := some intake_data5,
                  required_fields := some required_fields2,
                  missing_fields := some missing_fields2,
                  phase := some next_phase,
                  classification_reasoning :=
                    some (pyOrOpt classification_reason2 llm.last_reasoning_summary),
                  ui_reasoning_title := some (some ("Intake reasoning — " ++ field)),
                  ui_reasoning_summary := some (some ui_reasoning),
                  messages := [⟨"assistant", "Got it. (" ++ field ++ " recorded.)"⟩],
                  audit_log := [makeEvent "intake_field_collected"
                    [("field", field), ("value_preview", sTake answer_str 80)]] },
              goto := next_goto } }
    else
      { cmd :=
          { update :=
              { application_type := some primary_type1,
                application_categories := some categories3,
                intake := some intake_data3,
                required_fields := some required_fields1,
                missing_fields := some missing_fields1,
                phase := some "CHECKLIST",
                classification_reasoning :=
                  some (pyOrOpt classification_reason1 llm.last_reasoning_summary),
                messages := [⟨"assistant",
                  "Thanks — intake looks complete. I'll run the checklist evaluation now."⟩],
                audit_log := [makeEvent "intake_complete"
                  [("application_type", primary_type1.getD "None"),
                   ("application_categories", String.intercalate ", " categories3)]] },
            goto := "checklist" } }

/-- Embedding of the `intake` node.  The `.error` case propagates the latent
`_try_parse_fields` crash; `answer` is the resume value of the intake
question interrupt. -/
def intake (llm : LLM) (state : TSGState) (answer : String) : Except Unit NodeResult :=
  match try_parse_fields (last_user_text state) with
  | .error e => .error e
  | .ok parsed => .ok (intakeWithParsed llm state answer parsed)

/-! Helper lemmas. -/

/-- Whitespace characters are untouched by the smart punctuation table. -/
theorem smartPunct_of_ws {c : Char} (h : pyIsWs c = true) : smartPunctTranslate c = c := by
  have hc : ((((c = ' ' ∨ c = '\t') ∨ c = '\n') ∨ c = '\r') ∨ c = '\x0b') ∨ c = '\x0c' := by
    simpa [pyIsWs, Bool.or_eq_true, decide_eq_true_eq] using h
  rcases hc with ((((h | h) | h) | h) | h) | h <;> subst h <;> rfl

/-- Dropping a whitespace-only prefix of a whitespace-only list yields nil. -/
theorem dropWhile_ws_of_all {cs : List Char} (h : ∀ c ∈ cs, pyIsWs c = true) :
    cs.dropWhile pyIsWs = [] := by
  induction cs with
  | nil => rfl
  | cons c rest ih =>
    simp only [List.dropWhile]
    rw [h c (by simp)]
    exact ih fun x hx => h x (by simp [hx])

/-- Stripping a whitespace-only list yields nil. -/
theorem pyStripList_of_all_ws {cs : List Char} (h : ∀ c ∈ cs, pyIsWs c = true) :
    pyStripList cs = [] := by
  unfold pyStripList
  rw [dropWhile_ws_of_all h]
  rfl

/-- The skip-loop core never moves the index backwards. -/
theorem skipAnsweredGo_ge (answers : List (String × String)) (l : List String)
    (idx : Nat) : idx ≤ skipAnsweredGo answers l idx := by
  induction l generalizing idx with
  | nil => exact Nat.le_refl idx
  | cons q rest ih =>
    rw [skipAnsweredGo]
    split
    · exact Nat.le_trans (Nat.le_succ idx) (ih (idx + 1))
    · exact Nat.le_refl idx

/-- The skip loop never moves the index backwards. -/
theorem skipAnswered_ge (fups : List String) (answers : List (String × String))
    (idx : Nat) : idx ≤ skipAnswered fups answers idx :=
  skipAnsweredGo_ge answers (fups.drop idx) idx

/-- Core stop property: when the loop stops inside the list, the question at
the stop index is not yet answered. -/
theorem skipAnsweredGo_stop (answers : List (String × String)) (l : List String)
    (fups : List String) (idx : Nat) (hdrop : fups.drop idx = l)
    (h : skipAnsweredGo answers l idx < fups.length) :
    dmem answers (fups.getD (skipAnsweredGo answers l idx) "") = false := by
  induction l generalizing idx with
  | nil =>
    exfalso
    have hlen : fups.length ≤ idx := List.drop_eq_nil_iff.mp hdrop
    simp only [skipAnsweredGo] at h
    omega
  | cons q rest ih =>
    by_cases hm : dmem answers q = true
    · rw [skipAnsweredGo, if_pos hm] at h ⊢
      apply ih (idx + 1) ?_ h
      rw [← List.tail_drop, hdrop]
      rfl
    · rw [skipAnsweredGo, if_neg hm] at h ⊢
      have hget : fups.getD idx "" = q := by
        have h0 : fups[idx]? = some q := by
          have := List.getElem?_drop fups idx 0
          rw [hdrop] at this
          simpa using this.symm
        simp [List.getD_eq_getElem?_getD, h0]
      rw [hget]
      cases hb : dmem answers q with
      | false => rfl
      | true => exact absurd hb hm

/-- When the skip loop stops inside the list, the question there is not yet
answered. -/
theorem skipAnswered_stop (fups : List String) (answers : List (String × String))
    (idx : Nat) (h : skipAnswered fups answers idx < fups.length) :
    dmem answers (fups.getD (skipAnswered fups answers idx) "") = false :=
  skipAnsweredGo_stop answers (fups.drop idx) fups idx rfl h

/-- A value looked up in an association list satisfies any property all
entries satisfy. -/
theorem dget_forall {α : Type} (P : α → Prop) (l : List (String × α))
    (hall : ∀ p ∈ l, P p.2) (k : String) (v : α) (h : dget l k = some v) : P v := by
  induction l with
  | nil => simp [dget] at h
  | cons p rest ih =>
    rw [dget] at h
    split at h
    · cases h
      exact hall p (by simp)
    · exact ih (fun q hq => hall q (by simp [hq])) h

/-! C10.  `src/services/tsg-officer/tsg_officer/tools/clarifications.py`,
`looks_like_clarification_request`. -/

/-- C10: the clarification-request classifier returns `true` for every input
whose normalized text contains a question mark and has at most 8
whitespace-separated words, regardless of its substance, and returns `false`
for every empty or whitespace-only input. -/
theorem C10_short_question_replies_are_clarifications :
    (∀ text : String,
      (pyLstripSet quoteWsSet (pyStrip (normalizeUserText text))).data.contains '?' = true →
      (pySplit (pyLstripSet quoteWsSet (pyStrip (normalizeUserText text)))).length ≤ 8 →
      looks_like_clarification_request text = true) ∧
    (∀ text : String, (∀ c ∈ text.data, pyIsWs c = true) →
      looks_like_clarification_request text = false) := by
  constructor
  · intro text hq hlen
    unfold looks_like_clarification_request
    by_cases h0 : pyStrip (normalizeUserText text) = ""
    · rw [h0] at hq
      simp [pyLstripSet, List.contains] at hq
    · rw [if_neg h0, if_pos]
      simp only [Bool.and_eq_true, Bool.or_eq_true]
      exact ⟨hq, Or.inr (by simpa using hlen)⟩
  · intro text hws
    have hnil : pyStripList (normalizeUserText text).data = [] := by
      apply pyStripList_of_all_ws
      intro c hc
      simp only [normalizeUserText] at hc
      rcases List.mem_map.mp hc with ⟨d, hd, rfl⟩
      rw [smartPunct_of_ws (hws d hd)]
      exact hws d hd
    have hstr : pyStrip (normalizeUserText text) = "" := by
      simp [pyStrip, hnil]
    unfold looks_like_clarification_request
    rw [if_pos hstr]

/-- C10 witness: a genuine substantive answer phrased as a short question is
classified as a clarification request, and a whitespace-only reply is not. -/
theorem C10_witness :
    looks_like_clarification_request "Is it okay to deploy on Friday?" = true ∧
    looks_like_clarification_request "  " = false :=
  ⟨C10_short_question_replies_are_clarifications.1 "Is it okay to deploy on Friday?"
      (by decide) (by decide),
   C10_short_question_replies_are_clarifications.2 "  " (by decide)⟩

/-! C7.  `src/services/tsg-officer/tsg_officer/graph/nodes/review.py`. -/

/-- C7: the review node maps every textual input into the closed four-value
decision enum (recognized variants normalize to their enum value, anything
unrecognized other than the update-answers token yields NEED_INFO), and when
a reviewer decision is already on file it routes straight to Finalize with
only a phase change, asking nothing and leaving the decision untouched. -/
theorem C7_review_decision_normalization :
    (decisionFor "approve" = "APPROVE" ∧ decisionFor "Approved" = "APPROVE" ∧
      decisionFor "conditional-approve" = "CONDITIONAL_APPROVE") ∧
    (∀ raw : String, decisionFor raw ∈ DECISIONS) ∧
    (∀ raw : String, dget ALLOWED (normalizeDecisionKey raw) = none →
      sUpper (normalizeDecisionKey raw) ∉ DECISIONS → decisionFor raw = "NEED_INFO") ∧
    (∀ (llm : LLM) (state : TSGState) (answer : String),
      state.reviewer_decision.isSome = true →
      review llm state answer =
        { asked := none, cmd := { update := { phase := some "DONE" }, goto := "finalize" } }) ∧
    (∀ (llm : LLM) (state : TSGState) (answer : String),
      state.reviewer_decision = none → pyStrip answer ≠ UPDATE_ANSWERS_TOKEN →
      (review llm state answer).cmd.update.reviewer_decision =
        some (decisionFor (pyStrip answer))) := by
  refine ⟨⟨by decide, by decide, by decide⟩, ?_, ?_, ?_, ?_⟩
  · intro raw
    simp only [decisionFor]
    cases hd : dget ALLOWED (normalizeDecisionKey raw) with
    | some d =>
      exact dget_forall (· ∈ DECISIONS) ALLOWED (by decide) _ d hd
    | none =>
      show (if sUpper (normalizeDecisionKey raw) ∈ DECISIONS then
        sUpper (normalizeDecisionKey raw) else "NEED_INFO") ∈ DECISIONS
      split
      · assumption
      · decide
  · intro raw h1 h2
    simp only [decisionFor]
    rw [h1, if_neg h2]
  · intro llm state answer h
    unfold review
    rw [if_pos h]
  · intro llm state answer hdec htok
    unfold review
    rw [if_neg (by simp [hdec]), if_neg htok]

/-- C7 witness: concrete instances of the normalization map, an unrecognized
input defaulting to NEED_INFO inside the node, and the idempotent
already-decided route. -/
theorem C7_witness :
    decisionFor "totally unexpected text" ∈ DECISIONS ∧
    decisionFor "gibberish" = "NEED_INFO" ∧
    review {} { reviewer_decision := some "APPROVE" } "x" =
      { asked := none, cmd := { update := { phase := some "DONE" }, goto := "finalize" } } ∧
    (review {} { reviewer_decision := none } "gibberish").cmd.update.reviewer_decision =
      some (decisionFor (pyStrip "gibberish")) :=
  ⟨C7_review_decision_normalization.2.1 "totally unexpected text",
   C7_review_decision_normalization.2.2.1 "gibberish" (by decide) (by decide),
   C7_review_decision_normalization.2.2.2.1 {} { reviewer_decision := some "APPROVE" } "x"
     (by decide),
   C7_review_decision_normalization.2.2.2.2 {} { reviewer_decision := none } "gibberish"
     rfl (by decide)⟩

/-! C5.  `src/services/tsg-officer/tsg_officer/graph/nodes/finalize.py`. -/

/-- A finalized case used to exercise the terminal node twice. -/
def c5State : TSGState :=
  { case_id := "c5", phase := "DONE", reviewer_decision := some "APPROVE",
    checklist_report := some { overall_recommendation := "APPROVE" } }

/-- C5 counterexample: the second Finalize invocation does not produce the
same terminal notice as the first — the first posts the case-complete
summary, the second posts a distinct already-done notice (and also appends
that notice to the transcript, a further state change). -/
theorem C5_counterexample :
    (finalize (applyUpdate c5State (finalize c5State))).messages ≠
      (finalize c5State).messages ∧
    (finalize (applyUpdate c5State (finalize c5State))).messages ≠ [] := by
  constructor <;> decide

/-- C5 (amended): the first Finalize invocation appends exactly one summary
audit event and sets the finalized flag; every invocation on an
already-finalized case returns one fixed already-complete notice (the same
notice on every such invocation, but textually different from the first
invocation's summary), appends no audit event, and changes nothing except
appending that notice message. -/
theorem C5_finalize_idempotent (s : TSGState) :
    (s.final_message_sent = false →
      (finalize s).final_message_sent = some true ∧
      (finalize s).audit_log =
        [makeEvent "finalized"
          [("reviewer_decision", s.reviewer_decision.getD "NEED_INFO"),
           ("checklist_reco",
            match s.checklist_report with
            | some r => r.overall_recommendation
            | none => "NEED_INFO")]] ∧
      (applyUpdate s (finalize s)).final_message_sent = true) ∧
    (s.final_message_sent = true →
      finalize s =
        { messages := [⟨"assistant",
            "This case is already marked DONE. Use 'New Case' to start another approval."⟩] }) := by
  constructor
  · intro h
    unfold finalize
    rw [if_neg (by simp [h])]
    refine ⟨rfl, rfl, ?_⟩
    simp [applyUpdate]
  · intro h
    unfold finalize
    rw [if_pos h]

/-- C5 witness: the amended theorem applied to the concrete finalized case
and to the same case with the flag cleared. -/
theorem C5_witness :
    (finalize { c5State with final_message_sent := true } =
      { messages := [⟨"assistant",
          "This case is already marked DONE. Use 'New Case' to start another approval."⟩] }) ∧
    (finalize c5State).final_message_sent = some true :=
  ⟨(C5_finalize_idempotent { c5State with final_message_sent := true }).2 rfl,
   ((C5_finalize_idempotent c5State).1 rfl).1⟩

/-! C1.  `src/services/tsg-officer/tsg_officer/graph/nodes/followup.py`
clarification protocol. -/

/-- Whenever the followup node reaches its interrupt (a pending, non-diagram
question), the payload it asks is exactly the question at the skip-adjusted
index, whatever the resume value turns out to be. -/
theorem followup_asks (llm : LLM) (state : TSGState) (ans : String)
    (report : ChecklistReport) (idx : Nat) (question : String)
    (hrep : state.checklist_report = some report)
    (hidx : skipAnswered report.followup_questions state.followup_answers
      state.followup_index = idx)
    (hc1 : (report.followup_questions = [] ||
      report.followup_questions.length ≤ idx) = false)
    (hq : report.followup_questions.getD idx "" = question)
    (hnd : is_diagram_request question = false) :
    (followup llm state ans).asked =
      some { ptype := "followup_question", index := some idx, question := question,
             hint := "Answer in 1–3 sentences. If not applicable, reply N/A." } := by
  simp only [followup, hrep, hidx, hq, hc1]
  rw [if_neg (by simp), if_neg (by simp [hnd])]
  split
  · rfl
  · split
    · split
      · rfl
      · rfl
    · rfl

/-- C1: at a pending follow-up question, a clarification-style reply whose
bumped per-question count stays at or below the bound 3 stores the
incremented counter, leaves `followup_index` and `followup_answers`
untouched, loops back to the followup node, and the next invocation re-asks
exactly the same question; the clarification-style reply that takes the
count to 4 (the fourth consecutive one, whatever its text) stores the
`"[BYPASSED]"` sentinel as that question's answer and advances
`followup_index` by exactly one. -/
theorem C1_clarification_bound (llm : LLM) (state : TSGState) (ans : String)
    (report : ChecklistReport) (idx : Nat) (question : String) (n : Nat)
    (hrep : state.checklist_report = some report)
    (hidx : skipAnswered report.followup_questions state.followup_answers
      state.followup_index = idx)
    (hlt : idx < report.followup_questions.length)
    (hq : report.followup_questions.getD idx "" = question)
    (hnd : is_diagram_request question = false)
    (hcl : looks_like_clarification_request (pyStrip ans) = true)
    (hn : (bump_counter state.clarification_counts
      ("followup::" ++ pyStrip question)).2 = n) :
    (n ≤ MAX_EXPLANATION_REQUESTS_PER_QUESTION →
      (followup llm state ans).cmd.update.clarification_counts =
        some (bump_counter state.clarification_counts ("followup::" ++ pyStrip question)).1 ∧
      (followup llm state ans).cmd.update.followup_index = none ∧
      (followup llm state ans).cmd.update.followup_answers = none ∧
      (followup llm state ans).cmd.goto = "followup" ∧
      (∀ ans2 : String,
        (followup llm (applyUpdate state (followup llm state ans).cmd.update) ans2).asked =
          some { ptype := "followup_question", index := some idx, question := question,
                 hint := "Answer in 1–3 sentences. If not applicable, reply N/A." })) ∧
    (n = MAX_EXPLANATION_REQUESTS_PER_QUESTION + 1 →
      (followup llm state ans).cmd.update.clarification_counts =
        some (bump_counter state.clarification_counts ("followup::" ++ pyStrip question)).1 ∧
      (followup llm state ans).cmd.update.followup_answers =
        some (dset state.followup_answers question BYPASSED_ANSWER_VALUE) ∧
      (followup llm state ans).cmd.update.followup_index = some (idx + 1) ∧
      (followup llm state ans).cmd.goto = "followup") := by
  have hne : pyStrip ans ≠ "" := fun h => by
    rw [h] at hcl
    exact absurd hcl (by decide)
  have hc1 : (report.followup_questions = [] ||
      report.followup_questions.length ≤ idx) = false := by
    simp only [Bool.or_eq_false_iff, decide_eq_false_iff_not]
    constructor
    · intro h
      rw [h] at hlt
      simp at hlt
    · omega
  constructor
  · intro hle
    have hnot : ¬(MAX_EXPLANATION_REQUESTS_PER_QUESTION <
        (bump_counter state.clarification_counts ("followup::" ++ pyStrip question)).2) := by
      omega
    refine ⟨?_, ?_, ?_, ?_, ?_⟩
    · simp only [followup, hrep, hidx, hq, hc1]
      rw [if_neg (by simp), if_neg (by simp [hnd]), if_neg (by simp [hne]), if_pos hcl,
        if_neg hnot]
    · simp only [followup, hrep, hidx, hq, hc1]
      rw [if_neg (by simp), if_neg (by simp [hnd]), if_neg (by simp [hne]), if_pos hcl,
        if_neg hnot]
    · simp only [followup, hrep, hidx, hq, hc1]
      rw [if_neg (by simp), if_neg (by simp [hnd]), if_neg (by simp [hne]), if_pos hcl,
        if_neg hnot]
    · simp only [followup, hrep, hidx, hq, hc1]
      rw [if_neg (by simp), if_neg (by simp [hnd]), if_neg (by simp [hne]), if_pos hcl,
        if_neg hnot]
    · intro ans2
      have hu_rep : (followup llm state ans).cmd.update.checklist_report = none := by
        simp only [followup, hrep, hidx, hq, hc1]
        rw [if_neg (by simp), if_neg (by simp [hnd]), if_neg (by simp [hne]), if_pos hcl,
          if_neg hnot]
      have hu_ans : (followup llm state ans).cmd.update.followup_answers = none := by
        simp only [followup, hrep, hidx, hq, hc1]
        rw [if_neg (by simp), if_neg (by simp [hnd]), if_neg (by simp [hne]), if_pos hcl,
          if_neg hnot]
      have hu_idx : (followup llm state ans).cmd.update.followup_index = none := by
        simp only [followup, hrep, hidx, hq, hc1]
        rw [if_neg (by simp), if_neg (by simp [hnd]), if_neg (by simp [hne]), if_pos hcl,
          if_neg hnot]
      have hrep2 : (applyUpdate state (followup llm state ans).cmd.update).checklist_report =
          some report := by
        simp only [applyUpdate, hu_rep]
        exact hrep
      have hans2 : (applyUpdate state (followup llm state ans).cmd.update).followup_answers =
          state.followup_answers := by
        simp [applyUpdate, hu_ans]
      have hidx2 : (applyUpdate state (followup llm state ans).cmd.update).followup_index =
          state.followup_index := by
        simp [applyUpdate, hu_idx]
      apply followup_asks llm _ ans2 report idx question hrep2 ?_ hc1 hq hnd
      rw [hans2, hidx2]
      exact hidx
  · intro h4
    have hyes : MAX_EXPLANATION_REQUESTS_PER_QUESTION <
        (bump_counter state.clarification_counts ("followup::" ++ pyStrip question)).2 := by
      omega
    refine ⟨?_, ?_, ?_, ?_⟩ <;>
      (simp only [followup, hrep, hidx, hq, hc1]
       rw [if_neg (by simp), if_neg (by simp [hnd]), if_neg (by simp [hne]), if_pos hcl,
         if_pos hyes])

/-- Concrete follow-up question for the C1 witness. -/
def c1q : String := "Provide the documented data retention period."

/-- Fresh case at that question (no clarifications yet). -/
def c1State : TSGState :=
  { case_id := "c1", phase := "NEED_INFO",
    checklist_report := some { followup_questions := [c1q] } }

/-- Same case after three recorded clarification requests for the
question. -/
def c1State4 : TSGState :=
  { c1State with clarification_counts := [("followup::" ++ c1q, 3)] }

/-- C1 witness: the first clarification-style reply re-asks with the counter
at 1 and no index movement; the fourth consecutive one bypasses with the
sentinel and advances the index by one. -/
theorem C1_witness :
    (followup {} c1State "what does this mean?").cmd.update.followup_index = none ∧
    (followup {} c1State "what does this mean?").cmd.update.clarification_counts =
      some [("followup::" ++ c1q, 1)] ∧
    (followup {} c1State4 "what does this mean?").cmd.update.followup_answers =
      some [(c1q, BYPASSED_ANSWER_VALUE)] ∧
    (followup {} c1State4 "what does this mean?").cmd.update.followup_index = some 1 := by
  have h1 := C1_clarification_bound {} c1State "what does this mean?"
    { followup_questions := [c1q] } 0 c1q 1 rfl (by decide) (by decide) (by decide)
    (by decide) (by decide) (by decide)
  have h4 := C1_clarification_bound {} c1State4 "what does this mean?"
    { followup_questions := [c1q] } 0 c1q 4 rfl (by decide) (by decide) (by decide)
    (by decide) (by decide) (by decide)
  refine ⟨(h1.1 (by decide)).2.1, ?_, ?_, (h4.2 (by decide)).2.2.1⟩
  · have := (h1.1 (by decide)).1
    simpa using this
  · have := (h4.2 (by decide)).2.1
    simpa using this

/-! C9.  Diagram rerouting of follow-up questions
(`followup.py` lines 97-142 and `diagram.py` `_route_after_diagram`). -/

/-- Lookup after insertion at the same key. -/
theorem dget_dset_self {α : Type} (d : List (String × α)) (k : String) (v : α) :
    dget (dset d k v) k = some v := by
  induction d with
  | nil => simp [dget, dset]
  | cons p rest ih =>
    by_cases hp : p.1 = k
    · simp [dset, hp, dget]
    · simp [dset, hp, dget, ih]

/-- Lookup after insertion at a different key. -/
theorem dget_dset_ne {α : Type} (d : List (String × α)) (k k' : String) (v : α)
    (h : k' ≠ k) : dget (dset d k v) k' = dget d k' := by
  induction d with
  | nil => simp [dget, dset, Ne.symm h]
  | cons p rest ih =>
    by_cases hp : p.1 = k
    · simp [dset, hp, dget, Ne.symm h]
    · simp [dset, hp, dget, ih]

/-- Membership after insertion at the same key. -/
theorem dmem_dset_self {α : Type} (d : List (String × α)) (k : String) (v : α) :
    dmem (dset d k v) k = true := by
  simp [dmem, dget_dset_self]

/-- Without an uploaded diagram reference and without a confirmed generated
flowchart, no auto-fill answer can be built from the state. -/
theorem diagram_answer_none (state : TSGState)
    (hup : has_uploaded_diagram state = false)
    (hcm : has_confirmed_mermaid state = false) :
    diagram_answer_from_state state = none := by
  have hmermcond : (pyStrip (state.flowchart_mermaid.getD "") ≠ "" &&
      state.flowchart_confirmed) = false := by
    cases hcf : state.flowchart_confirmed with
    | false => simp
    | true =>
      unfold has_confirmed_mermaid at hcm
      rw [hcf] at hcm
      simp only [Bool.and_true] at hcm ⊢
      have hm : state.flowchart_mermaid.getD "" = "" := by simpa using hcm
      rw [hm]
      decide
  have himp : ¬(pyStrip (state.flowchart_mermaid.getD "") = "") →
      state.flowchart_confirmed = false := by
    intro hm
    cases hb : state.flowchart_confirmed with
    | false => rfl
    | true =>
      rw [hb, Bool.and_true] at hmermcond
      exact absurd (by simpa using hmermcond) hm
  unfold diagram_answer_from_state
  cases hu : state.diagram_upload with
  | none =>
    simp only [Option.getD_some]
    simp [hmermcond]
    exact himp
  | some u =>
    have hupbool : (u.path ≠ "" || u.name ≠ "") = false := by
      have h2 := hup
      unfold has_uploaded_diagram at h2
      rw [hu] at h2
      exact h2
    simp only [Bool.or_eq_false_iff, decide_eq_false_iff_not, Decidable.not_not] at hupbool
    simp [hupbool.1, hupbool.2]
    exact himp

/-- C9 (amended): a pending follow-up question matching the diagram
vocabulary, with no diagram evidence on file, is not asked — the node
records the pending pointer with the exact question text and index and
routes to the Diagram phase; when the diagram step completes,
`_route_after_diagram` records an answer keyed by the whitespace-stripped
question text and advances `followup_index` past the recorded index. -/
theorem C9_diagram_rerouting (llm : LLM) (state : TSGState) (ans : String)
    (report : ChecklistReport) (idx : Nat) (question : String)
    (hrep : state.checklist_report = some report)
    (hidx : skipAnswered report.followup_questions state.followup_answers
      state.followup_index = idx)
    (hlt : idx < report.followup_questions.length)
    (hq : report.followup_questions.getD idx "" = question)
    (hd : is_diagram_request question = true)
    (hup : has_uploaded_diagram state = false)
    (hcm : has_confirmed_mermaid state = false) :
    ((followup llm state ans).asked = none ∧
     (followup llm state ans).cmd.update.pending_diagram_followup =
       some (some ⟨idx, question⟩) ∧
     (followup llm state ans).cmd.update.phase = some "DIAGRAM" ∧
     (followup llm state ans).cmd.goto = "diagram") ∧
    (∀ (s2 : TSGState) (u : Update),
      s2.pending_diagram_followup = some ⟨idx, question⟩ →
      pyStrip question ≠ "" →
      dmem (((route_after_diagram s2 u).update.followup_answers).getD [])
        (pyStrip question) = true ∧
      (route_after_diagram s2 u).update.followup_index =
        some (max s2.followup_index (idx + 1)) ∧
      idx < max s2.followup_index (idx + 1) ∧
      (route_after_diagram s2 u).update.phase = some "NEED_INFO" ∧
      (route_after_diagram s2 u).goto = "followup") := by
  have hc1 : (report.followup_questions = [] ||
      report.followup_questions.length ≤ idx) = false := by
    simp only [Bool.or_eq_false_iff, decide_eq_false_iff_not]
    constructor
    · intro h
      rw [h] at hlt
      simp at hlt
    · omega
  have hnone := diagram_answer_none state hup hcm
  constructor
  · refine ⟨?_, ?_, ?_, ?_⟩ <;>
      (simp only [followup, hrep, hidx, hq, hc1, hnone]
       rw [if_neg (by simp), if_pos hd])
  · intro s2 u hpend hstrip
    have hqne : question ≠ "" := by
      intro h
      rw [h] at hstrip
      exact hstrip rfl
    unfold route_after_diagram
    rw [hpend]
    simp only [hqne]
    rw [if_pos (by simpa using hqne), if_pos hstrip]
    refine ⟨?_, rfl, by omega, rfl, rfl⟩
    simp only [Option.getD_some]
    exact dmem_dset_self _ _ _

/-- Follow-up question carrying surrounding whitespace, for the C9
counterexample. -/
def c9q : String := " Attach an architecture diagram. "

/-- State at that question. -/
def c9State : TSGState :=
  { case_id := "c9", phase := "NEED_INFO",
    checklist_report := some { followup_questions := [c9q] } }

/-- Upload update mimicking the diagram node's upload branch. -/
def c9Updates : Update :=
  { diagram_upload := some { name := "arch.png", path := "/uploads/arch.png" },
    audit_log := [makeEvent "diagram_file_uploaded" [("name", "arch.png")]] }

/-- C9 counterexample: the pending pointer stores the exact question text,
but after the diagram completes the recorded answer is keyed by the
whitespace-stripped text — no entry exists under the exact question text, so
the claim's "entry keyed by that exact question text" fails for questions
with surrounding whitespace. -/
theorem C9_counterexample :
    (followup {} c9State "x").cmd.update.pending_diagram_followup =
      some (some ⟨0, c9q⟩) ∧
    dmem (((route_after_diagram (applyUpdate c9State (followup {} c9State "x").cmd.update)
      c9Updates).update.followup_answers).getD []) c9q = false ∧
    dmem (((route_after_diagram (applyUpdate c9State (followup {} c9State "x").cmd.update)
      c9Updates).update.followup_answers).getD []) (pyStrip c9q) = true := by
  refine ⟨by decide, by decide, by decide⟩

/-- Whitespace-free diagram question state for the C9 witness. -/
def c9wState : TSGState :=
  { case_id := "w9", phase := "NEED_INFO",
    checklist_report := some { followup_questions := ["Provide a flowchart"] } }

/-- C9 witness: the amended theorem at a concrete whitespace-free diagram
question. -/
theorem C9_witness :
    (followup {} c9wState "x").cmd.update.pending_diagram_followup =
      some (some ⟨0, "Provide a flowchart"⟩) ∧
    (followup {} c9wState "x").cmd.goto = "diagram" := by
  have h := C9_diagram_rerouting {} c9wState "x"
    { followup_questions := ["Provide a flowchart"] } 0 "Provide a flowchart"
    rfl (by decide) (by decide) (by decide) (by decide) (by decide) (by decide)
  exact ⟨h.1.2.1, h.1.2.2.2⟩

/-! C3.  Monotonicity of `followup_index`
(`followup.py`, `checklist.py` line 264, `review.py` line 258,
`diagram.py` `_route_after_diagram`). -/

/-- Reviewed case with one answered follow-up, used to exhibit the
update-answers reset. -/
def c3State : TSGState :=
  { case_id := "c3", phase := "REVIEW", followup_index := 1,
    followup_answers := [("Q0", "A0")],
    checklist_report := some { followup_questions := ["Q0", "Q1"] } }

/-- C3 counterexample: the Review node's update-answers cycle writes
`followup_index = 0` over a state whose index is 1, so `followup_index` is
not non-decreasing over the whole case lifetime. -/
theorem C3_counterexample :
    (review {} c3State UPDATE_ANSWERS_TOKEN).cmd.update.followup_index = some 0 ∧
    c3State.followup_index = 1 := by
  exact ⟨by decide, rfl⟩

/-- C3 (amended): within a follow-up round `followup_index` never decreases —
the Followup node only keeps or advances it, the post-diagram routing only
keeps or advances it, and the question a Followup invocation asks is always
at an index at least the current one and never one that already has an
answer on file; the only writes that lower the index are the explicit
new-round resets to 0: the Checklist node when (and only when) it routes to
Followup, and the Review node's update-answers cycle. -/
theorem C3_followup_index_monotone :
    (∀ (llm : LLM) (s : TSGState) (a : String) (j : Nat),
      (followup llm s a).cmd.update.followup_index = some j → s.followup_index ≤ j) ∧
    (∀ (llm : LLM) (s : TSGState) (a : String) (p : Payload),
      (followup llm s a).asked = some p →
      dmem s.followup_answers p.question = false ∧
      ∃ i, p.index = some i ∧ s.followup_index ≤ i) ∧
    (∀ (s : TSGState) (u : Update) (j : Nat), u.followup_index = none →
      (route_after_diagram s u).update.followup_index = some j →
      s.followup_index ≤ j) ∧
    (∀ (llm : LLM) (s : TSGState) (a : String) (j : Nat),
      (review llm s a).cmd.update.followup_index = some j →
      j = 0 ∧ pyStrip a = UPDATE_ANSWERS_TOKEN ∧ s.reviewer_decision = none) ∧
    (∀ (lr : String → List Rule) (rp : String) (llm : LLM)
      (rep : ChecklistReport) (s : TSGState),
      ((checklist lr rp llm rep s).cmd.goto = "followup" →
        (checklist lr rp llm rep s).cmd.update.followup_index = some 0 ∧
        (checklist lr rp llm rep s).cmd.update.followup_answers = some []) ∧
      ((checklist lr rp llm rep s).cmd.goto ≠ "followup" →
        (checklist lr rp llm rep s).cmd.update.followup_index = none)) := by
  refine ⟨?_, ?_, ?_, ?_, ?_⟩
  · intro llm s a j h
    have hge := skipAnsweredGo_ge s.followup_answers
      ((match s.checklist_report with
        | some r => r.followup_questions
        | none => []).drop s.followup_index) s.followup_index
    simp only [followup, skipAnswered] at h
    split at h
    · simp at h
    · split at h
      · split at h
        · simp at h
          omega
        · simp at h
      · split at h
        · simp at h
        · split at h
          · split at h
            · simp at h
              omega
            · simp at h
          · simp at h
            omega
  · intro llm s a p h
    have hge := skipAnswered_ge (match s.checklist_report with
      | some r => r.followup_questions
      | none => []) s.followup_answers s.followup_index
    simp only [followup] at h
    split at h
    · simp at h
    · rename_i hc1
      have hlt : skipAnswered (match s.checklist_report with
          | some r => r.followup_questions
          | none => []) s.followup_answers s.followup_index <
          (match s.checklist_report with
          | some r => r.followup_questions
          | none => []).length := by
        simp only [Bool.or_eq_true, decide_eq_true_eq, not_or] at hc1
        omega
      have hstop := skipAnswered_stop (match s.checklist_report with
        | some r => r.followup_questions
        | none => []) s.followup_answers s.followup_index hlt
      split at h
      · split at h
        · simp at h
        · simp at h
      · split at h
        · injection h with h2
          subst h2
          exact ⟨hstop, _, rfl, hge⟩
        · split at h
          · split at h
            · injection h with h2
              subst h2
              exact ⟨hstop, _, rfl, hge⟩
            · injection h with h2
              subst h2
              exact ⟨hstop, _, rfl, hge⟩
          · injection h with h2
            subst h2
            exact ⟨hstop, _, rfl, hge⟩
  · intro s u j hnone h
    simp only [route_after_diagram] at h
    split at h
    · split at h
      · simp at h
        omega
      · simp at h
        split at h <;> simp_all
    · simp at h
      split at h <;> simp_all
  · intro llm s a j h
    simp only [review] at h
    split at h
    · simp at h
    · rename_i hdec
      split at h
      · rename_i htok
        simp at h
        exact ⟨h.symm, htok, by simpa using hdec⟩
      · simp at h
  · intro lr rp llm rep s
    simp only [checklist]
    constructor
    · intro hg
      rw [if_pos hg]
      exact ⟨rfl, rfl⟩
    · intro hg
      rw [if_neg hg]

/-- C3 witness: the amended theorem applied at a concrete bypass advance and
at the concrete update-answers reset. -/
theorem C3_witness :
    c1State4.followup_index ≤ 1 ∧
    (0 = 0 ∧ pyStrip "__TSG_UPDATE_FAIL_UNKNOWN__" = UPDATE_ANSWERS_TOKEN ∧
      c3State.reviewer_decision = none) :=
  ⟨C3_followup_index_monotone.1 {} c1State4 "what does this mean?" 1 (by decide),
   C3_followup_index_monotone.2.2.2.1 {} c3State "__TSG_UPDATE_FAIL_UNKNOWN__" 0 (by decide)⟩

/-! C8.  Audit coverage of state-mutating updates
(`review.py` line 214, `finalize.py`, `diagram.py`). -/

/-- `_route_after_diagram` never touches the audit channel of the update it
is given. -/
theorem route_after_audit (s : TSGState) (u : Update) :
    (route_after_diagram s u).update.audit_log = u.audit_log := by
  unfold route_after_diagram
  by_cases hdim : u.diagram_input_mode = none
  · rw [if_pos hdim]
    split
    · split <;> rfl
    · rfl
  · rw [if_neg hdim]
    split
    · split <;> rfl
    · rfl

/-- Reviewed-and-decided case for the C8 counterexample. -/
def c8State : TSGState :=
  { case_id := "c8", phase := "REVIEW", reviewer_decision := some "APPROVE" }

/-- C8 counterexample: the Review node's already-decided branch changes the
phase (REVIEW to DONE) while appending no audit event, so not every
state-mutating update appends an audit entry. -/
theorem C8_counterexample :
    (review {} c8State "x").cmd.update.audit_log = [] ∧
    (applyUpdate c8State (review {} c8State "x").cmd.update).phase ≠ c8State.phase := by
  exact ⟨by decide, by decide⟩

set_option maxHeartbeats 1000000 in
/-- C8 (amended): every node update appends at least one audit event, except
for the three read-only/pass-through branches — Review when a decision is
already on file (phase-only update), Finalize when already finalized
(notice message only), and Diagram when the diagram evidence is already
complete (routing/backfill only). -/
theorem C8_audit_on_mutation :
    (∀ (llm : LLM) (s : TSGState) (a : String) (r : NodeResult),
      intake llm s a = .ok r → r.cmd.update.audit_log ≠ []) ∧
    (∀ (lr : String → List Rule) (rp : String) (llm : LLM)
      (rep : ChecklistReport) (s : TSGState),
      (checklist lr rp llm rep s).cmd.update.audit_log ≠ []) ∧
    (∀ (llm : LLM) (s : TSGState) (a : String),
      (followup llm s a).cmd.update.audit_log ≠ []) ∧
    (∀ (llm : LLM) (s : TSGState) (a : String), s.reviewer_decision = none →
      (review llm s a).cmd.update.audit_log ≠ []) ∧
    (∀ s : TSGState, s.final_message_sent = false → (finalize s).audit_log ≠ []) ∧
    (∀ (llm : LLM) (s : TSGState) (a : PyAns), diagram_complete s = false →
      (diagram llm s a).cmd.update.audit_log ≠ []) := by
  refine ⟨?_, ?_, ?_, ?_, ?_, ?_⟩
  · intro llm s a r h
    simp only [intake] at h
    split at h
    · simp at h
    · injection h with h2
      subst h2
      simp only [intakeWithParsed]
      split
      · exact List.cons_ne_nil _ _
      · exact List.cons_ne_nil _ _
  · intro lr rp llm rep s
    by_cases hg : (checklist lr rp llm rep s).cmd.goto = "followup"
    · simp only [checklist] at hg ⊢
      rw [if_pos hg]
      exact List.cons_ne_nil _ _
    · simp only [checklist] at hg ⊢
      rw [if_neg hg]
      exact List.cons_ne_nil _ _
  · intro llm s a
    simp only [followup]
    split
    · simp
    · split
      · split <;> simp
      · split
        · simp
        · split
          · split <;> simp
          · simp
  · intro llm s a hdec
    simp only [review]
    rw [if_neg (by simp [hdec])]
    split <;> simp
  · intro s h
    unfold finalize
    rw [if_neg (by simp [h])]
    simp
  · intro llm s a hcomp
    simp only [diagram]
    rw [if_neg (by simp [hcomp])]
    split
    · simp
    · split
      · split
        · rw [route_after_audit]
          simp
        · rename_i hup
          exfalso
          have h2 : has_uploaded_diagram s = true := by simpa using hup
          simp [diagram_complete, h2] at hcomp
      · split
        · simp
        · split
          · simp
          · split
            · split
              · rw [route_after_audit]
                simp
              · simp
            · rename_i hmerm hconf
              exfalso
              have hcf : s.flowchart_confirmed = true := by simpa using hconf
              simp [diagram_complete, has_confirmed_mermaid, hcf, hmerm] at hcomp

/-- C8 witness: the amended theorem applied at concrete states for the
hypothesis-bearing conjuncts. -/
theorem C8_witness :
    (review {} { case_id := "w8", phase := "REVIEW" } "ok").cmd.update.audit_log ≠ [] ∧
    (finalize { case_id := "w8" }).audit_log ≠ [] ∧
    (diagram {} { case_id := "w8", phase := "DIAGRAM" } (.str "upload")).cmd.update.audit_log ≠ [] ∧
    (∀ r : NodeResult, intake {} { case_id := "w8", phase := "INTAKE" } "hello" = .ok r →
      r.cmd.update.audit_log ≠ []) :=
  ⟨C8_audit_on_mutation.2.2.2.1 {} { case_id := "w8", phase := "REVIEW" } "ok" rfl,
   C8_audit_on_mutation.2.2.2.2.1 { case_id := "w8" } rfl,
   C8_audit_on_mutation.2.2.2.2.2 {} { case_id := "w8", phase := "DIAGRAM" }
     (.str "upload") (by decide),
   fun r h => C8_audit_on_mutation.1 {} { case_id := "w8", phase := "INTAKE" } "hello" r h⟩

/-! C2.  Routing priority after the checklist report
(`checklist.py` lines 198-238). -/

/-- Checklist-phase case with a prior follow-up answer on file and a
policy-required, unconfirmed diagram, used against the claimed routing
priority. -/
def c2State : TSGState :=
  { case_id := "c2", phase := "CHECKLIST",
    followup_answers := [("Q0", "A0")],
    intake := [("needs_flowchart", .s "yes"), ("submission_text", .s "hello")] }

/-- Report with one remaining follow-up question for the C2 counterexample. -/
def c2Report : ChecklistReport :=
  { overall_recommendation := "NEED_INFO", followup_questions := ["Q1"], checklist := [] }

/-- C2 counterexample: follow-up questions exist, a prior round was answered,
a diagram is required by policy and none is confirmed or uploaded — yet the
node routes to Review with phase REVIEW, not to Diagram, so rule (2) of the
claimed priority does not apply in this situation. -/
theorem C2_counterexample :
    checklistFollowups (fun _ => []) c2Report c2State ≠ [] ∧
    c2State.followup_answers ≠ [] ∧
    needsFlowchartB c2State.intake = true ∧ hasFlowchartB c2State = false ∧
    (checklist (fun _ => []) "" {} c2Report c2State).cmd.goto = "review" ∧
    (checklist (fun _ => []) "" {} c2Report c2State).cmd.update.phase = some "REVIEW" := by
  decide

/-- C2 (amended): the routing priority keyed on the effective follow-up list
is (1) follow-ups exist and no answers are on file — NEED_INFO, goto
Followup; (2) follow-ups exist and a prior round was answered — REVIEW, goto
Review, without consulting the diagram requirement; (3) no follow-ups, a
diagram required by policy and none confirmed — DIAGRAM, goto Diagram;
(4) otherwise REVIEW, goto Review. -/
theorem C2_checklist_routing :
    ∀ (lr : String → List Rule) (rp : String) (llm : LLM)
      (rep : ChecklistReport) (s : TSGState),
      (checklistFollowups lr rep s ≠ [] ∧ s.followup_answers = [] →
        (checklist lr rp llm rep s).cmd.goto = "followup" ∧
        (checklist lr rp llm rep s).cmd.update.phase = some "NEED_INFO") ∧
      (checklistFollowups lr rep s ≠ [] ∧ s.followup_answers ≠ [] →
        (checklist lr rp llm rep s).cmd.goto = "review" ∧
        (checklist lr rp llm rep s).cmd.update.phase = some "REVIEW") ∧
      (checklistFollowups lr rep s = [] ∧ needsFlowchartB s.intake = true ∧
          hasFlowchartB s = false →
        (checklist lr rp llm rep s).cmd.goto = "diagram" ∧
        (checklist lr rp llm rep s).cmd.update.phase = some "DIAGRAM") ∧
      (checklistFollowups lr rep s = [] ∧
          (needsFlowchartB s.intake = false ∨ hasFlowchartB s = true) →
        (checklist lr rp llm rep s).cmd.goto = "review" ∧
        (checklist lr rp llm rep s).cmd.update.phase = some "REVIEW") := by
  intro lr rp llm rep s
  refine ⟨?_, ?_, ?_, ?_⟩
  · rintro ⟨h1, h2⟩
    simp only [checklistFollowups] at h1
    simp only [checklist]
    rw [if_pos h1, if_neg (by simp [h2]), if_pos rfl]
    exact ⟨rfl, rfl⟩
  · rintro ⟨h1, h2⟩
    simp only [checklistFollowups] at h1
    simp only [checklist]
    rw [if_pos h1, if_pos h2, if_neg (by decide)]
    exact ⟨rfl, rfl⟩
  · rintro ⟨h1, h2, h3⟩
    simp only [checklistFollowups] at h1
    simp only [checklist]
    rw [if_neg (by simp [h1]), if_pos (by simp [h2, h3]), if_neg (by decide)]
    exact ⟨rfl, rfl⟩
  · rintro ⟨h1, h2⟩
    simp only [checklistFollowups] at h1
    simp only [checklist]
    rw [if_neg (by simp [h1]), if_neg (by rcases h2 with h | h <;> simp [h]), if_neg (by decide)]
    exact ⟨rfl, rfl⟩

/-- State for the C2 witness: no follow-ups, diagram required, none on file. -/
def c2wState : TSGState :=
  { case_id := "w2",
    intake := [("needs_flowchart", .s "yes"), ("submission_text", .s "hi")] }

/-- C2 witness: the amended routing applied at a concrete diagram-bound
state. -/
theorem C2_witness :
    (checklistFollowups (fun _ => []) {} c2wState = [] ∧
      needsFlowchartB c2wState.intake = true ∧ hasFlowchartB c2wState = false) ∧
    (checklist (fun _ => []) "" {} {} c2wState).cmd.goto = "diagram" ∧
    (checklist (fun _ => []) "" {} {} c2wState).cmd.update.phase = some "DIAGRAM" :=
  ⟨⟨by decide, by decide, by decide⟩,
   (C2_checklist_routing (fun _ => []) "" {} {} c2wState).2.2.1
     ⟨by decide, by decide, by decide⟩⟩

/-! C6.  Synthesized follow-up questions
(`checklist.py` lines 157-196). -/

/-- Length bound of the synthesis loop: starting strictly below the cap, the
result never exceeds 8 questions. -/
theorem synthLoop_len (rbi : List (String × Rule)) (cats : List String)
    (items : List ChecklistItem) :
    ∀ acc : List String, acc.length < 8 → (synthLoop rbi cats items acc).length ≤ 8 := by
  induction items with
  | nil => intro acc h; simpa [synthLoop] using Nat.le_of_lt h
  | cons item rest ih =>
    intro acc h
    simp only [synthLoop]
    split
    · exact ih acc h
    · split
      · exact ih acc h
      · split
        · exact ih acc h
        · split
          · split
            · rename_i h8
              simp only [List.length_append, List.length_cons, List.length_nil] at h8 ⊢
              omega
            · apply ih
              rename_i h8
              simp only [List.length_append, List.length_cons, List.length_nil] at h8 ⊢
              omega
          · split
            · omega
            · exact ih acc h

/-- Provenance of synthesized questions: everything the loop adds comes from
an UNKNOWN item of severity BLOCKER or WARN via `synthQuestion`. -/
theorem synthLoop_mem (rbi : List (String × Rule)) (cats : List String)
    (items : List ChecklistItem) :
    ∀ (acc : List String) (q : String), q ∈ synthLoop rbi cats items acc →
      q ∈ acc ∨ ∃ item ∈ items, sUpper item.status = "UNKNOWN" ∧
        (sUpper item.severity = "BLOCKER" ∨ sUpper item.severity = "WARN") ∧
        q = synthQuestion rbi item := by
  induction items with
  | nil => intro acc q h; left; simpa [synthLoop] using h
  | cons item rest ih =>
    intro acc q h
    simp only [synthLoop] at h
    split at h
    · rcases ih acc q h with h' | ⟨it, hmem, hrest⟩
      · exact .inl h'
      · exact .inr ⟨it, List.mem_cons_of_mem _ hmem, hrest⟩
    · split at h
      · rcases ih acc q h with h' | ⟨it, hmem, hrest⟩
        · exact .inl h'
        · exact .inr ⟨it, List.mem_cons_of_mem _ hmem, hrest⟩
      · rename_i h1 h2
        have hstat : sUpper item.status = "UNKNOWN" := not_not.mp h1
        have himp : ¬sUpper item.severity = "BLOCKER" → sUpper item.severity = "WARN" := by
          simpa using h2
        have hsev : sUpper item.severity = "BLOCKER" ∨ sUpper item.severity = "WARN" :=
          or_iff_not_imp_left.mpr himp
        split at h
        · rcases ih acc q h with h' | ⟨it, hmem, hrest⟩
          · exact .inl h'
          · exact .inr ⟨it, List.mem_cons_of_mem _ hmem, hrest⟩
        · split at h
          · split at h
            · rcases List.mem_append.mp h with h' | h'
              · exact .inl h'
              · exact .inr ⟨item, List.mem_cons_self item rest, hstat, hsev, by simpa using h'⟩
            · rcases ih _ q h with h' | ⟨it, hmem, hrest⟩
              · rcases List.mem_append.mp h' with h'' | h''
                · exact .inl h''
                · exact .inr ⟨item, List.mem_cons_self item rest, hstat, hsev, by simpa using h''⟩
              · exact .inr ⟨it, List.mem_cons_of_mem _ hmem, hrest⟩
          · split at h
            · exact .inl h
            · rcases ih acc q h with h' | ⟨it, hmem, hrest⟩
              · exact .inl h'
              · exact .inr ⟨it, List.mem_cons_of_mem _ hmem, hrest⟩

/-- Order of synthesized questions: the loop's output is a sublist of the
qualifying items' questions in checklist order (deduplication, the empty- and
category-question filters and the cap only drop elements). -/
theorem synthLoop_sublist (rbi : List (String × Rule)) (cats : List String)
    (items : List ChecklistItem) :
    ∀ acc : List String,
      List.Sublist (synthLoop rbi cats items acc)
        (acc ++ (items.filter (fun i => decide (sUpper i.status = "UNKNOWN") &&
          (decide (sUpper i.severity = "BLOCKER") ||
           decide (sUpper i.severity = "WARN")))).map (synthQuestion rbi)) := by
  induction items with
  | nil => intro acc; simp [synthLoop]
  | cons item rest ih =>
    intro acc
    simp only [synthLoop]
    split
    · rename_i h1
      have hp : (decide (sUpper item.status = "UNKNOWN") &&
          (decide (sUpper item.severity = "BLOCKER") ||
           decide (sUpper item.severity = "WARN"))) = false := by simp [h1]
      rw [List.filter_cons, hp]
      simpa using ih acc
    · split
      · rename_i h1 h2
        have h2' : sUpper item.severity ≠ "BLOCKER" ∧ sUpper item.severity ≠ "WARN" := by
          simpa using h2
        have hp : (decide (sUpper item.status = "UNKNOWN") &&
            (decide (sUpper item.severity = "BLOCKER") ||
             decide (sUpper item.severity = "WARN"))) = false := by
          simp [h2'.1, h2'.2]
        rw [List.filter_cons, hp]
        simpa using ih acc
      · rename_i h1 h2
        have hstat : sUpper item.status = "UNKNOWN" := not_not.mp h1
        have himp : ¬sUpper item.severity = "BLOCKER" → sUpper item.severity = "WARN" := by
          simpa using h2
        have hp : (decide (sUpper item.status = "UNKNOWN") &&
            (decide (sUpper item.severity = "BLOCKER") ||
             decide (sUpper item.severity = "WARN"))) = true := by
          rcases or_iff_not_imp_left.mpr himp with hb | hw
          · simp [hstat, hb]
          · simp [hstat, hw]
        rw [List.filter_cons, hp]
        simp only [if_true, List.map_cons]
        split
        · exact (ih acc).trans
            (List.Sublist.append_left (List.sublist_cons_self _ _) acc)
        · split
          · split
            · exact List.Sublist.append_left
                (List.cons_sublist_cons.mpr (List.nil_sublist _)) acc
            · have := ih (acc ++ [synthQuestion rbi item])
              rwa [List.append_assoc, List.singleton_append] at this
          · split
            · exact List.sublist_append_left acc _
            · exact (ih acc).trans
                (List.Sublist.append_left (List.sublist_cons_self _ _) acc)

/-- First projection of the synthesis step's conditional pair. -/
theorem fst_synth_ite (a : List String) (r1 r2 : ChecklistReport) :
    (if ¬a = [] then (a, r1) else (([] : List String), r2)).1 = a := by
  by_cases h : a = []
  · rw [if_neg (not_not_intro h)]
    exact h.symm
  · rw [if_pos h]

/-- When the service returns no follow-up questions, the node's effective
follow-up list is exactly the synthesis loop's output. -/
theorem checklistFollowups_synth (lr : String → List Rule) (rep : ChecklistReport)
    (s : TSGState) (h : rep.followup_questions = []) :
    checklistFollowups lr rep s =
      synthLoop (buildSeen (checklistPre lr rep s).1 []) (normalize_categories s)
        rep.checklist [] := by
  simp only [checklistFollowups, checklistPre, h]
  by_cases hc : rep.checklist = []
  · simp [hc, synthLoop]
  · simp only [ne_eq, not_true_eq_false, and_false, if_false, not_false_iff, true_and, hc]
    exact fst_synth_ite _ _ _

/-- Report whose checklist holds an UNKNOWN WARN item before an UNKNOWN
BLOCKER item and no follow-up questions from the service. -/
def c6Report : ChecklistReport :=
  { overall_recommendation := "NEED_INFO",
    checklist :=
      [ { rule_id := "W1", title := "Warn item", status := "UNKNOWN", severity := "WARN" },
        { rule_id := "B1", title := "Blocker item", status := "UNKNOWN", severity := "BLOCKER" } ] }

/-- Fresh case used with `c6Report`. -/
def c6State : TSGState := { case_id := "c6" }

/-- C6 counterexample: with a WARN item listed before a BLOCKER item, the
synthesized questions keep checklist order — the WARN-derived question comes
first — so the list is not ranked by severity. -/
theorem C6_counterexample :
    checklistFollowups (fun _ => []) c6Report c6State =
      ["Please provide the information/evidence needed for: Warn item",
       "Please provide the information/evidence needed for: Blocker item"] ∧
    sUpper ((c6Report.checklist.getD 0 {}).severity) = "WARN" ∧
    sUpper ((c6Report.checklist.getD 1 {}).severity) = "BLOCKER" := by
  exact ⟨by decide, by decide, by decide⟩

/-- C6 (amended): when the service returns no follow-up questions, the node's
effective follow-up list is the synthesis loop's output; that output holds at
most 8 questions, every question stems from an UNKNOWN item of severity
BLOCKER or WARN via `synthQuestion`, and the questions appear in checklist
order (a sublist of the qualifying items' questions), not ranked by
severity. -/
theorem C6_synthesized_followups :
    (∀ (lr : String → List Rule) (rep : ChecklistReport) (s : TSGState),
      rep.followup_questions = [] →
      checklistFollowups lr rep s =
        synthLoop (buildSeen (checklistPre lr rep s).1 []) (normalize_categories s)
          rep.checklist []) ∧
    (∀ (rbi : List (String × Rule)) (cats : List String) (items : List ChecklistItem)
      (acc : List String), acc.length < 8 → (synthLoop rbi cats items acc).length ≤ 8) ∧
    (∀ (rbi : List (String × Rule)) (cats : List String) (items : List ChecklistItem)
      (q : String), q ∈ synthLoop rbi cats items [] →
      ∃ item ∈ items, sUpper item.status = "UNKNOWN" ∧
        (sUpper item.severity = "BLOCKER" ∨ sUpper item.severity = "WARN") ∧
        q = synthQuestion rbi item) ∧
    (∀ (rbi : List (String × Rule)) (cats : List String) (items : List ChecklistItem),
      List.Sublist (synthLoop rbi cats items [])
        ((items.filter (fun i => decide (sUpper i.status = "UNKNOWN") &&
          (decide (sUpper i.severity = "BLOCKER") ||
           decide (sUpper i.severity = "WARN")))).map (synthQuestion rbi))) := by
  refine ⟨?_, ?_, ?_, ?_⟩
  · exact checklistFollowups_synth
  · intro rbi cats items acc h
    exact synthLoop_len rbi cats items acc h
  · intro rbi cats items q h
    rcases synthLoop_mem rbi cats items [] q h with h' | hex
    · simp at h'
    · exact hex
  · intro rbi cats items
    simpa using synthLoop_sublist rbi cats items []

/-- C6 witness: the amended theorem applied at the concrete report. -/
theorem C6_witness :
    checklistFollowups (fun _ => []) c6Report c6State =
      synthLoop (buildSeen (checklistPre (fun _ => []) c6Report c6State).1 [])
        (normalize_categories c6State) c6Report.checklist [] ∧
    (synthLoop [] [] c6Report.checklist []).length ≤ 8 ∧
    (∃ item ∈ c6Report.checklist, sUpper item.status = "UNKNOWN" ∧
      (sUpper item.severity = "BLOCKER" ∨ sUpper item.severity = "WARN") ∧
      "Please provide the information/evidence needed for: Warn item" =
        synthQuestion [] item) :=
  ⟨C6_synthesized_followups.1 (fun _ => []) c6Report c6State rfl,
   C6_synthesized_followups.2.1 [] [] c6Report.checklist [] (by decide),
   C6_synthesized_followups.2.2.1 [] [] c6Report.checklist
     "Please provide the information/evidence needed for: Warn item" (by decide)⟩

/-! C4.  Category union deduplication
(`checklist.py` lines 87-104). -/

/-- Key membership after a dict assignment. -/
theorem dset_keys_mem {α : Type} (d : List (String × α)) (key k : String) (v : α) :
    k ∈ (dset d key v).map Prod.fst ↔ k ∈ d.map Prod.fst ∨ k = key := by
  induction d with
  | nil => simp [dset]
  | cons p rest ih =>
    obtain ⟨k0, w⟩ := p
    by_cases h : k0 = key
    · subst h
      have hd : dset ((k0, w) :: rest) k0 v = (k0, v) :: rest := by
        show (if k0 = k0 then (k0, v) :: rest else (k0, w) :: dset rest k0 v) = _
        rw [if_pos rfl]
      rw [hd]
      simp only [List.map_cons, List.mem_cons]
      tauto
    · have hd : dset ((k0, w) :: rest) key v = (k0, w) :: dset rest key v := by
        show (if k0 = key then (key, v) :: rest else (k0, w) :: dset rest key v) = _
        rw [if_neg h]
      rw [hd]
      simp only [List.map_cons, List.mem_cons, ih]
      tauto

/-- Dict assignment preserves duplicate-free keys. -/
theorem dset_keys_nodup {α : Type} (d : List (String × α)) (key : String) (v : α)
    (h : (d.map Prod.fst).Nodup) : ((dset d key v).map Prod.fst).Nodup := by
  induction d with
  | nil => simp [dset]
  | cons p rest ih =>
    obtain ⟨k0, w⟩ := p
    simp only [List.map_cons, List.nodup_cons] at h
    by_cases hk : k0 = key
    · subst hk
      have hd : dset ((k0, w) :: rest) k0 v = (k0, v) :: rest := by
        show (if k0 = k0 then (k0, v) :: rest else (k0, w) :: dset rest k0 v) = _
        rw [if_pos rfl]
      rw [hd]
      simp only [List.map_cons, List.nodup_cons]
      exact ⟨h.1, h.2⟩
    · have hd : dset ((k0, w) :: rest) key v = (k0, w) :: dset rest key v := by
        show (if k0 = key then (key, v) :: rest else (k0, w) :: dset rest key v) = _
        rw [if_neg hk]
      rw [hd]
      simp only [List.map_cons, List.nodup_cons]
      refine ⟨?_, ih h.2⟩
      intro hmem
      rcases (dset_keys_mem rest key k0 v).mp hmem with h' | h'
      · exact h.1 h'
      · exact hk h'

/-- Every entry after a dict assignment is an old entry or the new pair. -/
theorem dset_entries {α : Type} (d : List (String × α)) (key : String) (v : α) :
    ∀ p ∈ dset d key v, p ∈ d ∨ p = (key, v) := by
  induction d with
  | nil =>
    intro p hp
    simp only [dset, List.mem_singleton] at hp
    exact .inr hp
  | cons q rest ih =>
    obtain ⟨k0, w⟩ := q
    intro p hp
    by_cases hk : k0 = key
    · subst hk
      have hd : dset ((k0, w) :: rest) k0 v = (k0, v) :: rest := by
        show (if k0 = k0 then (k0, v) :: rest else (k0, w) :: dset rest k0 v) = _
        rw [if_pos rfl]
      rw [hd] at hp
      rcases List.mem_cons.mp hp with h' | h'
      · exact .inr h'
      · exact .inl (List.mem_cons_of_mem _ h')
    · have hd : dset ((k0, w) :: rest) key v = (k0, w) :: dset rest key v := by
        show (if k0 = key then (key, v) :: rest else (k0, w) :: dset rest key v) = _
        rw [if_neg hk]
      rw [hd] at hp
      rcases List.mem_cons.mp hp with h' | h'
      · exact .inl (h' ▸ List.mem_cons_self _ _)
      · rcases ih p h' with h'' | h''
        · exact .inl (List.mem_cons_of_mem _ h'')
        · exact .inr h''

/-- Keys of the `seen` dict after inserting a rule list: the old keys plus
every nonempty stripped rule identifier of the list. -/
theorem buildSeen_keys (rs : List Rule) :
    ∀ (seen : List (String × Rule)) (k : String),
      k ∈ (buildSeen rs seen).map Prod.fst ↔
        k ∈ seen.map Prod.fst ∨ ∃ r ∈ rs, pyStrip r.rule_id = k ∧ k ≠ "" := by
  induction rs with
  | nil => intro seen k; simp [buildSeen]
  | cons r rest ih =>
    intro seen k
    have hstep : buildSeen (r :: rest) seen =
        buildSeen rest (if pyStrip r.rule_id ≠ "" then dset seen (pyStrip r.rule_id) r
          else seen) := rfl
    rw [hstep, ih]
    by_cases hrid : pyStrip r.rule_id ≠ ""
    · rw [if_pos hrid, dset_keys_mem]
      constructor
      · rintro ((h | h) | ⟨r', hr', hp⟩)
        · exact .inl h
        · refine .inr ⟨r, List.mem_cons_self r rest, h.symm, ?_⟩
          rw [h]
          exact hrid
        · exact .inr ⟨r', List.mem_cons_of_mem r hr', hp⟩
      · rintro (h | ⟨r', hr', hp⟩)
        · exact .inl (.inl h)
        · rcases List.mem_cons.mp hr' with h' | h'
          · subst h'
            exact .inl (.inr hp.1.symm)
          · exact .inr ⟨r', h', hp⟩
    · rw [if_neg hrid]
      simp only [not_not] at hrid
      constructor
      · rintro (h | ⟨r', hr', hp⟩)
        · exact .inl h
        · exact .inr ⟨r', List.mem_cons_of_mem r hr', hp⟩
      · rintro (h | ⟨r', hr', hp⟩)
        · exact .inl h
        · rcases List.mem_cons.mp hr' with h' | h'
          · exfalso
            apply hp.2
            rw [← hp.1, h', hrid]
          · exact .inr ⟨r', h', hp⟩

/-- Inserting a rule list preserves duplicate-free keys. -/
theorem buildSeen_nodup (rs : List Rule) :
    ∀ seen : List (String × Rule), ((seen.map Prod.fst).Nodup) →
      ((buildSeen rs seen).map Prod.fst).Nodup := by
  induction rs with
  | nil => intro seen h; simpa [buildSeen] using h
  | cons r rest ih =>
    intro seen h
    have hstep : buildSeen (r :: rest) seen =
        buildSeen rest (if pyStrip r.rule_id ≠ "" then dset seen (pyStrip r.rule_id) r
          else seen) := rfl
    rw [hstep]
    apply ih
    split
    · exact dset_keys_nodup seen _ r h
    · exact h

/-- Every `seen` entry is keyed by the stripped identifier of its value. -/
theorem buildSeen_entries (rs : List Rule) :
    ∀ seen : List (String × Rule), (∀ p ∈ seen, pyStrip (Prod.snd p).rule_id = p.1) →
      ∀ p ∈ buildSeen rs seen, pyStrip (Prod.snd p).rule_id = p.1 := by
  induction rs with
  | nil => intro seen h; simpa [buildSeen] using h
  | cons r rest ih =>
    intro seen h
    have hstep : buildSeen (r :: rest) seen =
        buildSeen rest (if pyStrip r.rule_id ≠ "" then dset seen (pyStrip r.rule_id) r
          else seen) := rfl
    rw [hstep]
    apply ih
    intro p hp
    split at hp
    · rcases dset_entries seen _ r p hp with h' | h'
      · exact h p h'
      · subst h'
        rfl
    · exact h p hp

/-- Keys of the category union: exactly the nonempty stripped rule
identifiers returned for some category. -/
theorem catFold_keys (lr : String → List Rule) (cats : List String) :
    ∀ (acc : List (String × Rule)) (k : String),
      k ∈ ((cats.foldl (fun a c => buildSeen (lr c) a) acc).map Prod.fst) ↔
        k ∈ acc.map Prod.fst ∨ ∃ cat ∈ cats, ∃ r ∈ lr cat, pyStrip r.rule_id = k ∧ k ≠ "" := by
  induction cats with
  | nil => intro acc k; simp
  | cons c rest ih =>
    intro acc k
    rw [List.foldl_cons, ih, buildSeen_keys]
    constructor
    · rintro ((h | ⟨r, hr, hp⟩) | ⟨cat, hcat, hex⟩)
      · exact .inl h
      · exact .inr ⟨c, List.mem_cons_self c rest, r, hr, hp⟩
      · exact .inr ⟨cat, List.mem_cons_of_mem c hcat, hex⟩
    · rintro (h | ⟨cat, hcat, hex⟩)
      · exact .inl (.inl h)
      · rcases List.mem_cons.mp hcat with h' | h'
        · subst h'
          exact .inl (.inr hex)
        · exact .inr ⟨cat, h', hex⟩

/-- The category union has duplicate-free keys. -/
theorem catFold_nodup (lr : String → List Rule) (cats : List String) :
    ∀ acc : List (String × Rule), ((acc.map Prod.fst).Nodup) →
      (((cats.foldl (fun a c => buildSeen (lr c) a) acc).map Prod.fst).Nodup) := by
  induction cats with
  | nil => intro acc h; simpa using h
  | cons c rest ih =>
    intro acc h
    rw [List.foldl_cons]
    exact ih _ (buildSeen_nodup (lr c) acc h)

/-- Every category-union entry is keyed by the stripped identifier of its
value. -/
theorem catFold_entries (lr : String → List Rule) (cats : List String) :
    ∀ acc : List (String × Rule), (∀ p ∈ acc, pyStrip (Prod.snd p).rule_id = p.1) →
      ∀ p ∈ cats.foldl (fun a c => buildSeen (lr c) a) acc,
        pyStrip (Prod.snd p).rule_id = p.1 := by
  induction cats with
  | nil => intro acc h; simpa using h
  | cons c rest ih =>
    intro acc h
    rw [List.foldl_cons]
    exact ih _ (buildSeen_entries (lr c) acc h)

/-- In a dict with duplicate-free keys whose entries are keyed by the
stripped identifier of their value, the values with a given stripped
identifier number one when the key is present and zero otherwise. -/
theorem values_count (rid : String) :
    ∀ d : List (String × Rule), ((d.map Prod.fst).Nodup) →
      (∀ p ∈ d, pyStrip (Prod.snd p).rule_id = p.1) →
      ((d.map Prod.snd).filter (fun r => pyStrip r.rule_id = rid)).length =
        if rid ∈ d.map Prod.fst then 1 else 0 := by
  intro d
  induction d with
  | nil => intro _ _; simp
  | cons p rest ih =>
    obtain ⟨k, v⟩ := p
    intro hnd hent
    simp only [List.map_cons, List.nodup_cons] at hnd
    have hkey : pyStrip v.rule_id = k := by
      simpa using hent (k, v) (List.mem_cons_self _ _)
    have hrest := ih hnd.2 (fun q hq => hent q (List.mem_cons_of_mem _ hq))
    by_cases hk : k = rid
    · subst hk
      have hc : (decide (pyStrip v.rule_id = k)) = true := by simp [hkey]
      simp only [List.map_cons, List.filter_cons, hc, if_true, List.length_cons]
      rw [hrest, if_neg hnd.1, if_pos (List.mem_cons_self _ _)]
    · have hc : (decide (pyStrip v.rule_id = rid)) = false := by simp [hkey, hk]
      simp only [List.map_cons, List.filter_cons, hc, Bool.false_eq_true, if_false]
      rw [hrest]
      have hmem : (rid ∈ k :: rest.map Prod.fst) ↔ rid ∈ rest.map Prod.fst := by
        constructor
        · intro h
          rcases List.mem_cons.mp h with h' | h'
          · exact absurd h'.symm hk
          · exact h'
        · exact fun h => List.mem_cons_of_mem _ h
      by_cases hr : rid ∈ rest.map Prod.fst
      · rw [if_pos hr, if_pos (hmem.mpr hr)]
      · rw [if_neg hr, if_neg (fun h => hr (hmem.mp h))]

/-- C4 (amended): when categories are on file, the rule list passed to the
checklist evaluation carries each nonempty stripped rule identifier of the
per-category union exactly once; an identifier outside the union (or one
whose stripped form is empty) does not occur. -/
theorem C4_rule_union :
    ∀ (lr : String → List Rule) (rp : String) (llm : LLM) (rep : ChecklistReport)
      (s : TSGState) (rid : String),
      normalize_categories s ≠ [] →
      ((checklist lr rp llm rep s).rulesArg.filter
          (fun r => pyStrip r.rule_id = rid)).length =
        if rid ≠ "" ∧ ∃ cat ∈ normalize_categories s, ∃ r ∈ lr cat, pyStrip r.rule_id = rid
        then 1 else 0 := by
  intro lr rp llm rep s rid hcats
  have hrules : (checklist lr rp llm rep s).rulesArg =
      ((normalize_categories s).foldl (fun a c => buildSeen (lr c) a) []).map Prod.snd := by
    simp only [checklist, checklistPre]
    rw [if_pos hcats]
  rw [hrules]
  rw [values_count rid _ (catFold_nodup lr (normalize_categories s) [] (by simp))
    (catFold_entries lr (normalize_categories s) [] (by simp))]
  have hiff : (rid ∈ ((normalize_categories s).foldl (fun a c => buildSeen (lr c) a) []).map
      Prod.fst) ↔
      (rid ≠ "" ∧ ∃ cat ∈ normalize_categories s, ∃ r ∈ lr cat, pyStrip r.rule_id = rid) := by
    rw [catFold_keys]
    simp only [List.map_nil, List.not_mem_nil, false_or]
    constructor
    · rintro ⟨cat, hcat, r, hr, hp, hne⟩
      exact ⟨hne, cat, hcat, r, hr, hp⟩
    · rintro ⟨hne, cat, hcat, r, hr, hp⟩
      exact ⟨cat, hcat, r, hr, hp, hne⟩
  by_cases hcond : rid ≠ "" ∧ ∃ cat ∈ normalize_categories s, ∃ r ∈ lr cat,
      pyStrip r.rule_id = rid
  · rw [if_pos (hiff.mpr hcond), if_pos hcond]
  · rw [if_neg (fun h => hcond (hiff.mp h)), if_neg hcond]

/-- Case with one category, used against the literal claim. -/
def c4State : TSGState := { case_id := "c4", application_categories := some ["A"] }

/-- Rule repository returning a single rule with an empty identifier. -/
def c4lr : String → List Rule := fun _ => [{ rule_id := "", title := "anon" }]

/-- C4 counterexample: a rule whose identifier is empty is dropped from the
union — its identifier occurs zero times, not exactly once. -/
theorem C4_counterexample :
    normalize_categories c4State = ["A"] ∧
    ({ rule_id := "", title := "anon" } : Rule) ∈ c4lr "A" ∧
    ((checklist c4lr "" {} {} c4State).rulesArg.filter
        (fun r => pyStrip r.rule_id = "")).length = 0 ∧
    (checklist c4lr "" {} {} c4State).rulesArg = [] := by
  exact ⟨by decide, by decide, by decide, by decide⟩

/-- Case with two categories sharing a rule set. -/
def c4wState : TSGState := { case_id := "w4", application_categories := some ["A", "B"] }

/-- Rule repository returning the same rule for every category. -/
def c4wlr : String → List Rule := fun _ => [{ rule_id := "r1", title := "shared" }]

/-- C4 witness: the amended theorem at two overlapping categories — the
shared rule occurs exactly once. -/
theorem C4_witness :
    normalize_categories c4wState ≠ [] ∧
    ((checklist c4wlr "" {} {} c4wState).rulesArg.filter
        (fun r => pyStrip r.rule_id = "r1")).length =
      (if ("r1" : String) ≠ "" ∧ ∃ cat ∈ normalize_categories c4wState,
          ∃ r ∈ c4wlr cat, pyStrip r.rule_id = "r1" then 1 else 0) ∧
    ((checklist c4wlr "" {} {} c4wState).rulesArg.filter
        (fun r => pyStrip r.rule_id = "r1")).length = 1 :=
  ⟨by decide,
   C4_rule_union c4wlr "" {} {} c4wState "r1" (by decide),
   by decide⟩

end TSG
